import Mathlib

/-!
Verification of `config/configure.go` (aliyun-cli).

A shallow embedding of the interactive `configure` workflow:
`doConfigure`, the five mode collectors `configureAK` .. `configureRsaKeyPair`,
`ReadInput`, and the two masking helpers `MosaicString` and `GetLastChars`.

Conventions of the embedding

* A Go `string` is a finite sequence of bytes; `len` and slicing count bytes.
* A Go `int` is a 64-bit two's-complement integer: arithmetic results are
  reduced with `wrapInt`.
* A run-time panic is the outer `Option` (`none`); a Go `error` result is an
  inner `Option Error` (`none` is `nil`).
* The mutable environment (standard input, file system, persisted
  configuration, everything observable that the workflow does) is threaded
  explicitly as a `World`.
-/

namespace Config

/-! ## Strings and machine integers -/

/-- One byte of a Go string. -/
abbrev Byte := Fin 256

/-- A Go `string`: an immutable sequence of bytes. -/
abbrev GoString := List Byte

/-- The bytes of an ASCII literal of the source text (one byte per character). -/
def ascii (s : String) : GoString := s.toList.map (fun c => Fin.ofNat c.toNat)

/-- The byte `'*'`. -/
def starByte : Byte := 42

/-- The string literal `"*"`. -/
def star : GoString := [starByte]

/-- Result of an `int` operation: the mathematical result reduced to the
64-bit two's-complement range. -/
def wrapInt (x : Int) : Int := (x + 2 ^ 63) % 2 ^ 64 - 2 ^ 63

/-- Go `len(s)` for a string. -/
def len (s : GoString) : Int := (s.length : Int)

/-- Go `strings.Repeat(s, count)`: `count` copies of `s`; panics on a
negative count. -/
def Repeat (s : GoString) (count : Int) : Option GoString :=
  if count < 0 then none else some (List.replicate count.toNat s).flatten

/-- Go slice expression `s[r:]`: panics unless `0 <= r <= len(s)`. -/
def sliceFrom (s : GoString) (r : Int) : Option GoString :=
  if 0 ≤ r ∧ r ≤ len s then some (s.drop r.toNat) else none

/-- `MosaicString` of `configure.go`. -/
def MosaicString (s : GoString) (lastChars : Int) : Option GoString :=
  let r := wrapInt (len s - lastChars)
  if r > 0 then do
    let stars ← Repeat star r
    let tl ← sliceFrom s r
    pure (stars ++ tl)
  else
    Repeat star (len s)

/-- `GetLastChars` of `configure.go`. -/
def GetLastChars (s : GoString) (lastChars : Int) : Option GoString :=
  let r := wrapInt (len s - lastChars)
  if r > 0 then
    sliceFrom s r
  else
    Repeat star (len s)

/-! ## Data model -/

/-- Go `AuthenticateMode`: a named string type. -/
abbrev AuthenticateMode := GoString

/-- Modelled from the spec: the constant `AK` of type `AuthenticateMode`,
declared outside `configure.go`; its value is the mode name of section 3. -/
def AK : AuthenticateMode := ascii "AK"

/-- Modelled from the spec: the constant `StsToken`, declared outside
`configure.go`. -/
def StsToken : AuthenticateMode := ascii "StsToken"

/-- Modelled from the spec: the constant `RamRoleArn`, declared outside
`configure.go`. -/
def RamRoleArn : AuthenticateMode := ascii "RamRoleArn"

/-- Modelled from the spec: the constant `EcsRamRole`, declared outside
`configure.go`. -/
def EcsRamRole : AuthenticateMode := ascii "EcsRamRole"

/-- Modelled from the spec: the constant `RsaKeyPair`, declared outside
`configure.go`. -/
def RsaKeyPair : AuthenticateMode := ascii "RsaKeyPair"

/-- Modelled from the spec: the `Profile` record of section 3 (its declaration
is outside `configure.go`); the fields are those `configure.go` reads and
writes. -/
structure Profile where
  Name : GoString
  Mode : AuthenticateMode
  AccessKeyId : GoString
  AccessKeySecret : GoString
  StsToken : GoString
  RamRoleArn : GoString
  RoleSessionName : GoString
  ExpiredSeconds : Int
  RamRoleName : GoString
  PrivateKey : GoString
  KeyPairName : GoString
  RegionId : GoString
  OutputFormat : GoString
  Language : GoString
  deriving DecidableEq

/-- Modelled from the spec: the configuration store of section 3, a set of
profiles keyed by `Name` plus the name of the current profile (its declaration
is outside `configure.go`). -/
structure Configuration where
  CurrentProfile : GoString
  Profiles : List Profile
  deriving DecidableEq

/-- A Go `error` value. -/
inductive Error where
  /-- an error produced by a collaborator (`LoadConfiguration`,
  `SaveConfiguration`, `ioutil.ReadFile`), identified by a number -/
  | external (id : Nat)
  /-- `fmt.Errorf("unexcepted authenticate mode: %s", mode)` -/
  | unexpectedMode (mode : GoString)
  /-- `fmt.Errorf("read key file %s failed %v", keyFile, err)` -/
  | readKeyFile (keyFile : GoString) (err : Error)
  deriving DecidableEq

/-- What the workflow does to its surroundings, in the order it happens. -/
inductive Event where
  /-- `cli.Printf(w, format, args...)` -/
  | printf (format : String) (args : List GoString)
  /-- `conf.PutProfile(cp)` -/
  | putProfile (cp : Profile)
  /-- `SaveConfiguration(conf)` -/
  | saveConfiguration (conf : Configuration)
  /-- `DoHello(w, &cp)` -/
  | doHello (cp : Profile)
  deriving DecidableEq

/-- The environment of one run. -/
structure World where
  /-- the tokens standard input will deliver, one per `Scanf` call; an empty
  token is an empty line -/
  stdin : List GoString
  /-- the file system as `ioutil.ReadFile` sees it: the content of the file
  of that name, or the number of the failure -/
  files : GoString → Except Nat GoString
  /-- what `LoadConfiguration` finds: the persisted store, or the number of
  the failure -/
  persisted : Except Nat Configuration
  /-- whether writing the persisted store fails, and the number of the
  failure -/
  saveFailure : Option Nat
  /-- everything done so far, oldest first -/
  trace : List Event

/-- Record one event. -/
def World.emit (σ : World) (e : Event) : World :=
  { σ with trace := σ.trace ++ [e] }

/-- `cli.Printf(w, format, args...)`: writes to the output stream. -/
def Printf (format : String) (args : List GoString) (σ : World) : World :=
  σ.emit (Event.printf format args)

/-- `fmt.Scanf("%s\n", &s)` into a fresh `s`: delivers the next token of
standard input; at end of input `s` keeps its zero value. -/
def Scanf (σ : World) : GoString × World :=
  (σ.stdin.headD [], { σ with stdin := σ.stdin.tail })

/-- `ioutil.ReadFile(filename)`. -/
def ReadFile (filename : GoString) (σ : World) : Except Error GoString :=
  match σ.files filename with
  | Except.error id => Except.error (Error.external id)
  | Except.ok buf => Except.ok buf

/-! ## Configuration store -/

/-- Modelled from the spec: `LoadConfiguration(w)`, section 4.1 `Load`; reads
the persisted store or fails. Its body is outside `configure.go`. -/
def LoadConfiguration (σ : World) : Except Error Configuration :=
  match σ.persisted with
  | Except.error id => Except.error (Error.external id)
  | Except.ok conf => Except.ok conf

/-- Modelled from the spec: `conf.GetProfile(name)`, section 4.1, exact-name
lookup. Its body is outside `configure.go`. -/
def Configuration.GetProfile (conf : Configuration) (name : GoString) : Option Profile :=
  conf.Profiles.find? (fun p => p.Name = name)

/-- Modelled from the spec: `conf.NewProfile(name)`, section 4.1, a zero-valued
profile with only `Name` set, not inserted into the store. Its body is outside
`configure.go`. -/
def Configuration.NewProfile (_conf : Configuration) (name : GoString) : Profile :=
  { Name := name, Mode := [], AccessKeyId := [], AccessKeySecret := [], StsToken := [],
    RamRoleArn := [], RoleSessionName := [], ExpiredSeconds := 0, RamRoleName := [],
    PrivateKey := [], KeyPairName := [], RegionId := [], OutputFormat := [], Language := [] }

/-- Insert or overwrite by `Name` in a list of profiles. -/
def upsert (cp : Profile) : List Profile → List Profile
  | [] => [cp]
  | p :: ps => if p.Name = cp.Name then cp :: ps else p :: upsert cp ps

/-- Modelled from the spec: `conf.PutProfile(cp)`, section 4.1, inserts or
overwrites by `Name`. Its body is outside `configure.go`. -/
def Configuration.PutProfile (conf : Configuration) (cp : Profile) (σ : World) :
    Configuration × World :=
  ({ conf with Profiles := upsert cp conf.Profiles }, σ.emit (Event.putProfile cp))

/-- Modelled from the spec: `SaveConfiguration(conf)`, section 4.1 `Save`;
overwrites the persisted store or fails. Its body is outside `configure.go`. -/
def SaveConfiguration (conf : Configuration) (σ : World) : Option Error × World :=
  let σ := σ.emit (Event.saveConfiguration conf)
  match σ.saveFailure with
  | some id => (some (Error.external id), σ)
  | none => (none, { σ with persisted := Except.ok conf })

/-- `DoHello(w, &cp)`: the greeting shown after configuration, an external
collaborator. -/
def DoHello (cp : Profile) (σ : World) : World :=
  σ.emit (Event.doHello cp)

/-! ## The workflow of `configure.go` -/

/-- `ReadInput` of `configure.go`. -/
def ReadInput (defaultValue : GoString) (σ : World) : GoString × World :=
  let (s, σ) := Scanf σ
  if s = [] then (defaultValue, σ) else (s, σ)

/-- `configureAK` of `configure.go`; the profile behind the pointer `cp` is
passed in and returned. -/
def configureAK (cp : Profile) (σ : World) : Option (Option Error × Profile × World) := do
  let shown ← MosaicString cp.AccessKeyId 3
  let σ := Printf "Access Key Id [%s]: " [shown] σ
  let (v, σ) := ReadInput cp.AccessKeyId σ
  let cp := { cp with AccessKeyId := v }
  let shown ← MosaicString cp.AccessKeySecret 3
  let σ := Printf "Access Key Secret [%s]: " [shown] σ
  let (v, σ) := ReadInput cp.AccessKeySecret σ
  let cp := { cp with AccessKeySecret := v }
  pure (none, cp, σ)

/-- `configureStsToken` of `configure.go`. -/
def configureStsToken (cp : Profile) (σ : World) : Option (Option Error × Profile × World) := do
  let (err, cp, σ) ← configureAK cp σ
  match err with
  | some e => pure (some e, cp, σ)
  | none =>
    let σ := Printf "Sts Token [%s]: " [cp.StsToken] σ
    let (v, σ) := ReadInput cp.StsToken σ
    let cp := { cp with StsToken := v }
    pure (none, cp, σ)

/-- `configureRamRoleArn` of `configure.go`. -/
def configureRamRoleArn (cp : Profile) (σ : World) : Option (Option Error × Profile × World) := do
  let (err, cp, σ) ← configureAK cp σ
  match err with
  | some e => pure (some e, cp, σ)
  | none =>
    let σ := Printf "Ram Role Arn [%s]: " [cp.RamRoleArn] σ
    let (v, σ) := ReadInput cp.RamRoleArn σ
    let cp := { cp with RamRoleArn := v }
    let σ := Printf "Role Session Name [%s]: " [cp.RoleSessionName] σ
    let (v, σ) := ReadInput cp.RoleSessionName σ
    let cp := { cp with RoleSessionName := v }
    let cp := { cp with ExpiredSeconds := 900 }
    pure (none, cp, σ)

/-- `configureEcsRamRole` of `configure.go`. -/
def configureEcsRamRole (cp : Profile) (σ : World) : Option (Option Error × Profile × World) :=
  let σ := Printf "Ecs Ram Role [%s]: " [cp.RamRoleName] σ
  let (v, σ) := ReadInput cp.RamRoleName σ
  let cp := { cp with RamRoleName := v }
  some (none, cp, σ)

/-- `configureRsaKeyPair` of `configure.go`. -/
def configureRsaKeyPair (cp : Profile) (σ : World) : Option (Option Error × Profile × World) :=
  let σ := Printf "Rsa Private Key File: " [] σ
  let (keyFile, σ) := ReadInput [] σ
  match ReadFile keyFile σ with
  | Except.error err => some (some (Error.readKeyFile keyFile err), cp, σ)
  | Except.ok buf =>
    let cp := { cp with PrivateKey := buf }
    let σ := Printf "Rsa Key Pair Name: " [] σ
    let (v, σ) := ReadInput [] σ
    let cp := { cp with KeyPairName := v }
    let cp := { cp with ExpiredSeconds := 900 }
    some (none, cp, σ)

/-- Lines 49-52 of `doConfigure`: the stored profile of that name, or a new
one when there is none. -/
def startProfile (conf : Configuration) (profileName : GoString) : Profile :=
  match conf.GetProfile profileName with
  | some p => p
  | none => conf.NewProfile profileName

/-- Lines 56-78 of `doConfigure`: the switch on the mode. The values the
collectors return are dropped, as in the source; `Except.error` is the
`return` of the `default` case. -/
def collectModeFields (mode : GoString) (cp : Profile) (σ : World) :
    Option (Except Error (Profile × World)) :=
  if mode ≠ [] then
    if mode = AK then do
      let cp := { cp with Mode := AK }
      let (_, cp, σ) ← configureAK cp σ
      pure (Except.ok (cp, σ))
    else if mode = StsToken then do
      let cp := { cp with Mode := StsToken }
      let (_, cp, σ) ← configureStsToken cp σ
      pure (Except.ok (cp, σ))
    else if mode = RamRoleArn then do
      let cp := { cp with Mode := RamRoleArn }
      let (_, cp, σ) ← configureRamRoleArn cp σ
      pure (Except.ok (cp, σ))
    else if mode = EcsRamRole then do
      let cp := { cp with Mode := EcsRamRole }
      let (_, cp, σ) ← configureEcsRamRole cp σ
      pure (Except.ok (cp, σ))
    else if mode = RsaKeyPair then do
      let cp := { cp with Mode := RsaKeyPair }
      let (_, cp, σ) ← configureRsaKeyPair cp σ
      pure (Except.ok (cp, σ))
    else
      pure (Except.error (Error.unexpectedMode mode))
  else do
    let (_, cp, σ) ← configureAK cp σ
    pure (Except.ok (cp, σ))

/-- Lines 80-94 of `doConfigure`, the block headed `configure common`. -/
def collectCommonFields (cp : Profile) (σ : World) : Profile × World :=
  let σ := Printf "Default Region Id [%s]: " [cp.RegionId] σ
  let (v, σ) := ReadInput cp.RegionId σ
  let cp := { cp with RegionId := v }
  let σ := Printf "Default Output Format [%s]: json (Only support json))\n" [cp.OutputFormat] σ
  let cp := { cp with OutputFormat := ascii "json" }
  let σ := Printf "Default Language [zh|en] %s: " [cp.Language] σ
  let (v, σ) := ReadInput cp.Language σ
  let cp := { cp with Language := v }
  let cp :=
    if cp.Language ≠ ascii "zh" ∧ cp.Language ≠ ascii "en" then
      { cp with Language := ascii "en" }
    else cp
  (cp, σ)

/-- Lines 99-111 of `doConfigure`: put the profile, make it current, save. -/
def saveProfile (conf : Configuration) (profileName : GoString) (cp : Profile) (σ : World) :
    Option Error × World :=
  let σ := Printf "Saving profile[%s] ..." [profileName] σ
  let (conf, σ) := conf.PutProfile cp σ
  let conf := { conf with CurrentProfile := cp.Name }
  let (err, σ) := SaveConfiguration conf σ
  match err with
  | some e => (some e, σ)
  | none =>
    let σ := Printf "Done.\n" [] σ
    let σ := DoHello cp σ
    (none, σ)

/-- `doConfigure` of `configure.go`, its body cut at the blank lines into
`startProfile`, `collectModeFields`, `collectCommonFields` and `saveProfile`.
The result is `none` for a run-time panic, otherwise the returned `error`
(`none` is `nil`) and the world after the run. -/
def doConfigure (profileName : GoString) (mode : GoString) (σ : World) :
    Option (Option Error × World) :=
  match LoadConfiguration σ with
  | Except.error err => some (some err, σ)
  | Except.ok conf => do
    let cp := startProfile conf profileName
    let σ := Printf "Configuring profile \x27%s\x27 in \x27%s\x27 authenticate mode...\n"
      [profileName, mode] σ
    match ← collectModeFields mode cp σ with
    | Except.error err => pure (some err, σ)
    | Except.ok (cp, σ) =>
      let (cp, σ) := collectCommonFields cp σ
      pure (saveProfile conf profileName cp σ)

/-! ## Observations on a run -/

/-- The profiles handed to `PutProfile`, in order. -/
def putProfiles : List Event → List Profile
  | [] => []
  | Event.putProfile cp :: es => cp :: putProfiles es
  | _ :: es => putProfiles es

/-- The stores handed to `SaveConfiguration`, in order. -/
def savedConfigurations : List Event → List Configuration
  | [] => []
  | Event.saveConfiguration conf :: es => conf :: savedConfigurations es
  | _ :: es => savedConfigurations es

/-- A world at the start of a run: nothing has happened yet. -/
def World.start (stdin : List GoString) (files : GoString → Except Nat GoString)
    (persisted : Except Nat Configuration) (saveFailure : Option Nat) : World :=
  { stdin := stdin, files := files, persisted := persisted, saveFailure := saveFailure,
    trace := [] }

/-- A file system in which no file can be read. -/
def noFiles : GoString → Except Nat GoString := fun _ => Except.error 2

/-- The empty store. -/
def emptyConfiguration : Configuration := { CurrentProfile := [], Profiles := [] }

/-- A store holding one profile `default` in mode `RamRoleArn` whose
`ExpiredSeconds` is 0, whose `AccessKeyId` is `OLDID` and whose `KeyPairName`
is `old`. -/
def roleStore : Configuration :=
  { CurrentProfile := ascii "default",
    Profiles := [{ emptyConfiguration.NewProfile (ascii "default") with
      Mode := RamRoleArn, AccessKeyId := ascii "OLDID", KeyPairName := ascii "old" }] }

/-- A store holding one profile `default` whose `OutputFormat` is `xml`. -/
def xmlStore : Configuration :=
  { CurrentProfile := ascii "default",
    Profiles := [{ emptyConfiguration.NewProfile (ascii "default") with
      Mode := AK, OutputFormat := ascii "xml" }] }

/-- A store holding two profiles, `default` and `other`. -/
def twoStore : Configuration :=
  { CurrentProfile := ascii "other",
    Profiles := [
      { emptyConfiguration.NewProfile (ascii "default") with
        Mode := AK, AccessKeyId := ascii "OLDID" },
      { emptyConfiguration.NewProfile (ascii "other") with
        Mode := EcsRamRole, RamRoleName := ascii "role" }] }

/-- A store holding one profile `default`, configured in mode `StsToken`. -/
def configuredStore : Configuration :=
  { CurrentProfile := ascii "default",
    Profiles := [
      { emptyConfiguration.NewProfile (ascii "default") with
        Mode := StsToken, AccessKeyId := ascii "OLDID", AccessKeySecret := ascii "OLDSECRET",
        StsToken := ascii "OLDTOKEN", RegionId := ascii "cn-hangzhou",
        OutputFormat := ascii "json", Language := ascii "zh" }] }

/-- A file system with the single readable file `/key.pem`, of content `KEY`. -/
def oneKeyFile : GoString → Except Nat GoString :=
  fun name => if name = ascii "/key.pem" then Except.ok (ascii "KEY") else Except.error 2

/-- Keep-on-empty in the spec's words: an empty token retains the current
value, any other token replaces it. -/
def keepOnEmpty (current token : GoString) : GoString :=
  if token = [] then current else token

/-- The `i`-th token standard input delivers, counted from 0; empty once the
input is exhausted. -/
def token : List GoString → Nat → GoString
  | [], _ => []
  | t :: _, 0 => t
  | _ :: ts, i + 1 => token ts i

/-- The language rule in the spec's words: a value that is not exactly `zh`
or `en` becomes `en`. -/
def normalizeLanguage (l : GoString) : GoString :=
  if l = ascii "zh" ∨ l = ascii "en" then l else ascii "en"

/-- The keep-on-empty rule in the claim's words, for one prompt: an empty
token leaves the field's current value unchanged, a non-empty token replaces
the value with exactly that token. -/
def KeptOrReplaced (current tok result : GoString) : Prop :=
  (tok = [] → result = current) ∧ (tok ≠ [] → result = tok)

/-- What `MosaicString s 3` shows (it cannot panic, see `MosaicString_three`). -/
def masked3 (s : GoString) : GoString := (MosaicString s 3).getD []

/-! ## Lemmas on the building blocks -/

theorem wrapInt_of_range (x : Int) (h0 : -(2 ^ 63) ≤ x) (h1 : x < 2 ^ 63) : wrapInt x = x := by
  unfold wrapInt
  omega

theorem wrapInt_le (x : Int) (h0 : -(2 ^ 63) ≤ x) : wrapInt x ≤ x := by
  unfold wrapInt
  omega

theorem flatten_replicate_star (k : Nat) :
    (List.replicate k star).flatten = List.replicate k starByte := by
  induction k with
  | zero => rfl
  | succ k ih => simp [List.replicate_succ, star, ih]

theorem MosaicString_three (s : GoString) : MosaicString s 3 = some (masked3 s) := by
  have hlen : (0 : Int) ≤ len s := by unfold len; omega
  have hw := wrapInt_le (len s - 3) (by omega)
  unfold masked3 MosaicString
  by_cases hr : wrapInt (len s - 3) > 0
  · have h1 : ¬ wrapInt (len s - 3) < 0 := by omega
    have h2 : 0 ≤ wrapInt (len s - 3) ∧ wrapInt (len s - 3) ≤ len s := by omega
    simp [hr, Repeat, sliceFrom, h1, h2]
  · have h1 : ¬ len s < 0 := by omega
    simp [hr, Repeat, h1]

theorem keepOnEmpty_nil (t : GoString) : keepOnEmpty [] t = t := by
  unfold keepOnEmpty
  by_cases h : t = [] <;> simp [h]

theorem keepOnEmpty_spec (c t : GoString) : KeptOrReplaced c t (keepOnEmpty c t) := by
  unfold KeptOrReplaced keepOnEmpty
  by_cases h : t = [] <;> simp [h]

theorem headD_eq_token (l : List GoString) : l.headD [] = token l 0 := by
  cases l <;> rfl

theorem token_tail (l : List GoString) (i : Nat) : token l.tail i = token l (i + 1) := by
  cases l <;> simp [token]

theorem ReadInput_eq (d : GoString) (σ : World) :
    ReadInput d σ = (keepOnEmpty d (token σ.stdin 0), { σ with stdin := σ.stdin.tail }) := by
  unfold ReadInput Scanf keepOnEmpty
  rw [headD_eq_token]
  by_cases h : token σ.stdin 0 = [] <;> simp [h]

theorem configureAK_eq (cp : Profile) (σ : World) :
    configureAK cp σ = some (none,
      { cp with
        AccessKeyId := keepOnEmpty cp.AccessKeyId (token σ.stdin 0),
        AccessKeySecret := keepOnEmpty cp.AccessKeySecret (token σ.stdin 1) },
      { σ with
        stdin := σ.stdin.tail.tail,
        trace := σ.trace ++
          [Event.printf "Access Key Id [%s]: " [masked3 cp.AccessKeyId],
           Event.printf "Access Key Secret [%s]: " [masked3 cp.AccessKeySecret]] }) := by
  simp [configureAK, MosaicString_three, ReadInput_eq, Printf, World.emit, token_tail]

theorem configureStsToken_eq (cp : Profile) (σ : World) :
    configureStsToken cp σ = some (none,
      { cp with
        AccessKeyId := keepOnEmpty cp.AccessKeyId (token σ.stdin 0),
        AccessKeySecret := keepOnEmpty cp.AccessKeySecret (token σ.stdin 1),
        StsToken := keepOnEmpty cp.StsToken (token σ.stdin 2) },
      { σ with
        stdin := σ.stdin.tail.tail.tail,
        trace := σ.trace ++
          [Event.printf "Access Key Id [%s]: " [masked3 cp.AccessKeyId],
           Event.printf "Access Key Secret [%s]: " [masked3 cp.AccessKeySecret],
           Event.printf "Sts Token [%s]: " [cp.StsToken]] }) := by
  simp [configureStsToken, configureAK_eq, ReadInput_eq, Printf, World.emit, token_tail]

theorem configureRamRoleArn_eq (cp : Profile) (σ : World) :
    configureRamRoleArn cp σ = some (none,
      { cp with
        AccessKeyId := keepOnEmpty cp.AccessKeyId (token σ.stdin 0),
        AccessKeySecret := keepOnEmpty cp.AccessKeySecret (token σ.stdin 1),
        RamRoleArn := keepOnEmpty cp.RamRoleArn (token σ.stdin 2),
        RoleSessionName := keepOnEmpty cp.RoleSessionName (token σ.stdin 3),
        ExpiredSeconds := 900 },
      { σ with
        stdin := σ.stdin.tail.tail.tail.tail,
        trace := σ.trace ++
          [Event.printf "Access Key Id [%s]: " [masked3 cp.AccessKeyId],
           Event.printf "Access Key Secret [%s]: " [masked3 cp.AccessKeySecret],
           Event.printf "Ram Role Arn [%s]: " [cp.RamRoleArn],
           Event.printf "Role Session Name [%s]: " [cp.RoleSessionName]] }) := by
  simp [configureRamRoleArn, configureAK_eq, ReadInput_eq, Printf, World.emit, token_tail]

theorem configureEcsRamRole_eq (cp : Profile) (σ : World) :
    configureEcsRamRole cp σ = some (none,
      { cp with RamRoleName := keepOnEmpty cp.RamRoleName (token σ.stdin 0) },
      { σ with
        stdin := σ.stdin.tail,
        trace := σ.trace ++ [Event.printf "Ecs Ram Role [%s]: " [cp.RamRoleName]] }) := by
  simp [configureEcsRamRole, ReadInput_eq, Printf, World.emit]

theorem configureRsaKeyPair_error (cp : Profile) (σ : World) (id : Nat)
    (h : σ.files (token σ.stdin 0) = Except.error id) :
    configureRsaKeyPair cp σ = some
      (some (Error.readKeyFile (token σ.stdin 0) (Error.external id)), cp,
      { σ with
        stdin := σ.stdin.tail,
        trace := σ.trace ++ [Event.printf "Rsa Private Key File: " []] }) := by
  simp [configureRsaKeyPair, ReadInput_eq, Printf, World.emit, ReadFile, keepOnEmpty_nil, h]

theorem configureRsaKeyPair_ok (cp : Profile) (σ : World) (buf : GoString)
    (h : σ.files (token σ.stdin 0) = Except.ok buf) :
    configureRsaKeyPair cp σ = some (none,
      { cp with PrivateKey := buf, KeyPairName := token σ.stdin 1, ExpiredSeconds := 900 },
      { σ with
        stdin := σ.stdin.tail.tail,
        trace := σ.trace ++
          [Event.printf "Rsa Private Key File: " [], Event.printf "Rsa Key Pair Name: " []] }) := by
  simp [configureRsaKeyPair, ReadInput_eq, Printf, World.emit, ReadFile, keepOnEmpty_nil, h,
    token_tail]

theorem collectCommonFields_eq (cp : Profile) (σ : World) :
    collectCommonFields cp σ =
      ({ cp with
          RegionId := keepOnEmpty cp.RegionId (token σ.stdin 0),
          OutputFormat := ascii "json",
          Language := normalizeLanguage (keepOnEmpty cp.Language (token σ.stdin 1)) },
       { σ with
          stdin := σ.stdin.tail.tail,
          trace := σ.trace ++
            [Event.printf "Default Region Id [%s]: " [cp.RegionId],
             Event.printf "Default Output Format [%s]: json (Only support json))\n"
               [cp.OutputFormat],
             Event.printf "Default Language [zh|en] %s: " [cp.Language]] }) := by
  simp only [collectCommonFields, ReadInput_eq, Printf, World.emit, token_tail, normalizeLanguage]
  by_cases h : keepOnEmpty cp.Language (token σ.stdin 1) = ascii "zh" ∨
      keepOnEmpty cp.Language (token σ.stdin 1) = ascii "en"
  · have h2 : ¬ (keepOnEmpty cp.Language (token σ.stdin 1) ≠ ascii "zh" ∧
        keepOnEmpty cp.Language (token σ.stdin 1) ≠ ascii "en") := by tauto
    simp [h, h2]
  · have h2 : keepOnEmpty cp.Language (token σ.stdin 1) ≠ ascii "zh" ∧
        keepOnEmpty cp.Language (token σ.stdin 1) ≠ ascii "en" := by tauto
    simp [h, h2]

theorem saveProfile_eq (conf : Configuration) (profileName : GoString) (cp : Profile)
    (σ : World) :
    saveProfile conf profileName cp σ =
      match σ.saveFailure with
      | some id => (some (Error.external id),
          { σ with trace := σ.trace ++
              [Event.printf "Saving profile[%s] ..." [profileName],
               Event.putProfile cp,
               Event.saveConfiguration
                 { CurrentProfile := cp.Name, Profiles := upsert cp conf.Profiles }] })
      | none => (none,
          { σ with
            persisted := Except.ok
              { CurrentProfile := cp.Name, Profiles := upsert cp conf.Profiles },
            trace := σ.trace ++
              [Event.printf "Saving profile[%s] ..." [profileName],
               Event.putProfile cp,
               Event.saveConfiguration
                 { CurrentProfile := cp.Name, Profiles := upsert cp conf.Profiles },
               Event.printf "Done.\n" [],
               Event.doHello cp] }) := by
  cases h : σ.saveFailure <;>
    simp [saveProfile, Configuration.PutProfile, SaveConfiguration, Printf, World.emit, DoHello, h]

/-! ## Closed form of a run -/

/-- Closed form of the mode switch for the five mode names and the empty
mode: the profile after it and the tokens left on standard input. -/
def modeResult (mode : GoString) (cp : Profile) (toks : List GoString)
    (files : GoString → Except Nat GoString) : Profile × List GoString :=
  if mode = [] then
    ({ cp with
        AccessKeyId := keepOnEmpty cp.AccessKeyId (token toks 0),
        AccessKeySecret := keepOnEmpty cp.AccessKeySecret (token toks 1) },
     toks.tail.tail)
  else if mode = AK then
    ({ cp with
        Mode := AK,
        AccessKeyId := keepOnEmpty cp.AccessKeyId (token toks 0),
        AccessKeySecret := keepOnEmpty cp.AccessKeySecret (token toks 1) },
     toks.tail.tail)
  else if mode = StsToken then
    ({ cp with
        Mode := StsToken,
        AccessKeyId := keepOnEmpty cp.AccessKeyId (token toks 0),
        AccessKeySecret := keepOnEmpty cp.AccessKeySecret (token toks 1),
        StsToken := keepOnEmpty cp.StsToken (token toks 2) },
     toks.tail.tail.tail)
  else if mode = RamRoleArn then
    ({ cp with
        Mode := RamRoleArn,
        AccessKeyId := keepOnEmpty cp.AccessKeyId (token toks 0),
        AccessKeySecret := keepOnEmpty cp.AccessKeySecret (token toks 1),
        RamRoleArn := keepOnEmpty cp.RamRoleArn (token toks 2),
        RoleSessionName := keepOnEmpty cp.RoleSessionName (token toks 3),
        ExpiredSeconds := 900 },
     toks.tail.tail.tail.tail)
  else if mode = EcsRamRole then
    ({ cp with
        Mode := EcsRamRole,
        RamRoleName := keepOnEmpty cp.RamRoleName (token toks 0) },
     toks.tail)
  else
    match files (token toks 0) with
    | Except.error _ => ({ cp with Mode := RsaKeyPair }, toks.tail)
    | Except.ok buf =>
      ({ cp with
          Mode := RsaKeyPair,
          PrivateKey := buf,
          KeyPairName := token toks 1,
          ExpiredSeconds := 900 },
       toks.tail.tail)

/-- Closed form of the common-field block. -/
def commonResult (cp : Profile) (toks : List GoString) : Profile :=
  { cp with
    RegionId := keepOnEmpty cp.RegionId (token toks 0),
    OutputFormat := ascii "json",
    Language := normalizeLanguage (keepOnEmpty cp.Language (token toks 1)) }

/-- The mode argument is one of the five mode names. -/
def validMode (mode : GoString) : Prop :=
  mode = AK ∨ mode = StsToken ∨ mode = RamRoleArn ∨ mode = EcsRamRole ∨ mode = RsaKeyPair

instance (mode : GoString) : Decidable (validMode mode) := by
  unfold validMode
  infer_instance

theorem putProfiles_append (a b : List Event) :
    putProfiles (a ++ b) = putProfiles a ++ putProfiles b := by
  induction a with
  | nil => rfl
  | cons e es ih => cases e <;> simp [putProfiles, ih]

theorem savedConfigurations_append (a b : List Event) :
    savedConfigurations (a ++ b) = savedConfigurations a ++ savedConfigurations b := by
  induction a with
  | nil => rfl
  | cons e es ih => cases e <;> simp [savedConfigurations, ih]

theorem collectModeFields_eq (mode : GoString) (cp : Profile) (σ : World)
    (hmode : mode = [] ∨ validMode mode) :
    ∃ evs, collectModeFields mode cp σ = some (Except.ok
        ((modeResult mode cp σ.stdin σ.files).1,
         { σ with stdin := (modeResult mode cp σ.stdin σ.files).2, trace := σ.trace ++ evs }))
      ∧ putProfiles evs = [] ∧ savedConfigurations evs = [] := by
  have hAK : AK ≠ [] := by decide
  have hSts : StsToken ≠ [] ∧ StsToken ≠ AK := by decide
  have hRam : RamRoleArn ≠ [] ∧ RamRoleArn ≠ AK ∧ RamRoleArn ≠ StsToken := by decide
  have hEcs : EcsRamRole ≠ [] ∧ EcsRamRole ≠ AK ∧ EcsRamRole ≠ StsToken ∧
      EcsRamRole ≠ RamRoleArn := by decide
  have hRsa : RsaKeyPair ≠ [] ∧ RsaKeyPair ≠ AK ∧ RsaKeyPair ≠ StsToken ∧
      RsaKeyPair ≠ RamRoleArn ∧ RsaKeyPair ≠ EcsRamRole := by decide
  rcases hmode with h | h | h | h | h | h <;> subst h
  · refine ⟨[Event.printf "Access Key Id [%s]: " [masked3 cp.AccessKeyId],
      Event.printf "Access Key Secret [%s]: " [masked3 cp.AccessKeySecret]], ?_, rfl, rfl⟩
    simp [collectModeFields, modeResult, configureAK_eq]
  · refine ⟨[Event.printf "Access Key Id [%s]: " [masked3 cp.AccessKeyId],
      Event.printf "Access Key Secret [%s]: " [masked3 cp.AccessKeySecret]], ?_, rfl, rfl⟩
    simp [collectModeFields, modeResult, configureAK_eq, hAK]
  · refine ⟨[Event.printf "Access Key Id [%s]: " [masked3 cp.AccessKeyId],
      Event.printf "Access Key Secret [%s]: " [masked3 cp.AccessKeySecret],
      Event.printf "Sts Token [%s]: " [cp.StsToken]], ?_, rfl, rfl⟩
    simp [collectModeFields, modeResult, configureStsToken_eq, hSts]
  · refine ⟨[Event.printf "Access Key Id [%s]: " [masked3 cp.AccessKeyId],
      Event.printf "Access Key Secret [%s]: " [masked3 cp.AccessKeySecret],
      Event.printf "Ram Role Arn [%s]: " [cp.RamRoleArn],
      Event.printf "Role Session Name [%s]: " [cp.RoleSessionName]], ?_, rfl, rfl⟩
    simp [collectModeFields, modeResult, configureRamRoleArn_eq, hRam]
  · refine ⟨[Event.printf "Ecs Ram Role [%s]: " [cp.RamRoleName]], ?_, rfl, rfl⟩
    simp [collectModeFields, modeResult, configureEcsRamRole_eq, hEcs]
  · cases hf : σ.files (token σ.stdin 0) with
    | error id =>
      refine ⟨[Event.printf "Rsa Private Key File: " []], ?_, rfl, rfl⟩
      simp [collectModeFields, modeResult, configureRsaKeyPair_error _ _ _ hf, hRsa, hf]
    | ok buf =>
      refine ⟨[Event.printf "Rsa Private Key File: " [],
        Event.printf "Rsa Key Pair Name: " []], ?_, rfl, rfl⟩
      simp [collectModeFields, modeResult, configureRsaKeyPair_ok _ _ _ hf, hRsa, hf]

/-- Closed form of the profile a run hands to `PutProfile`. -/
def runProfile (profileName mode : GoString) (conf : Configuration) (toks : List GoString)
    (files : GoString → Except Nat GoString) : Profile :=
  commonResult (modeResult mode (startProfile conf profileName) toks files).1
    (modeResult mode (startProfile conf profileName) toks files).2

/-- Closed form of the store a run hands to `SaveConfiguration`. -/
def runStore (profileName mode : GoString) (conf : Configuration) (toks : List GoString)
    (files : GoString → Except Nat GoString) : Configuration :=
  { CurrentProfile := (runProfile profileName mode conf toks files).Name,
    Profiles := upsert (runProfile profileName mode conf toks files) conf.Profiles }

theorem doConfigure_run (profileName mode : GoString) (σ : World) (conf : Configuration)
    (hload : σ.persisted = Except.ok conf) (hmode : mode = [] ∨ validMode mode) :
    ∃ σ', doConfigure profileName mode σ = some (σ.saveFailure.map Error.external, σ') ∧
      putProfiles σ'.trace =
        putProfiles σ.trace ++ [runProfile profileName mode conf σ.stdin σ.files] ∧
      savedConfigurations σ'.trace =
        savedConfigurations σ.trace ++ [runStore profileName mode conf σ.stdin σ.files] ∧
      σ'.stdin =
        (modeResult mode (startProfile conf profileName) σ.stdin σ.files).2.tail.tail ∧
      σ'.files = σ.files ∧
      σ'.saveFailure = σ.saveFailure ∧
      σ'.persisted =
        (match σ.saveFailure with
         | none => Except.ok (runStore profileName mode conf σ.stdin σ.files)
         | some _ => Except.ok conf) := by
  obtain ⟨evs, hc, hp, hs⟩ := collectModeFields_eq mode (startProfile conf profileName)
    (Printf "Configuring profile \x27%s\x27 in \x27%s\x27 authenticate mode...\n"
      [profileName, mode] σ) hmode
  have hd : doConfigure profileName mode σ = some
      (saveProfile conf profileName
        (collectCommonFields (modeResult mode (startProfile conf profileName) σ.stdin σ.files).1
          { σ with
            stdin := (modeResult mode (startProfile conf profileName) σ.stdin σ.files).2,
            trace := σ.trace ++ [Event.printf
              "Configuring profile \x27%s\x27 in \x27%s\x27 authenticate mode...\n"
              [profileName, mode]] ++ evs }).1
        (collectCommonFields (modeResult mode (startProfile conf profileName) σ.stdin σ.files).1
          { σ with
            stdin := (modeResult mode (startProfile conf profileName) σ.stdin σ.files).2,
            trace := σ.trace ++ [Event.printf
              "Configuring profile \x27%s\x27 in \x27%s\x27 authenticate mode...\n"
              [profileName, mode]] ++ evs }).2) := by
    unfold doConfigure LoadConfiguration
    rw [hload]
    simp only [hc, Option.bind_eq_bind, Option.some_bind, bind, pure]
    simp [Printf, World.emit, hload]
  rw [hd]
  cases hsf : σ.saveFailure <;>
    simp [collectCommonFields_eq, saveProfile_eq,
      hsf, putProfiles_append, savedConfigurations_append, hp, hs,
      putProfiles, savedConfigurations, runProfile, runStore, commonResult, hload]

theorem modeNames_distinct :
    AK ≠ [] ∧ StsToken ≠ [] ∧ RamRoleArn ≠ [] ∧ EcsRamRole ≠ [] ∧ RsaKeyPair ≠ [] ∧
    AK ≠ StsToken ∧ AK ≠ RamRoleArn ∧ AK ≠ EcsRamRole ∧ AK ≠ RsaKeyPair ∧ StsToken ≠ AK ∧
    StsToken ≠ RamRoleArn ∧ StsToken ≠ EcsRamRole ∧ StsToken ≠ RsaKeyPair ∧ RamRoleArn ≠ AK ∧
    RamRoleArn ≠ StsToken ∧ RamRoleArn ≠ EcsRamRole ∧ RamRoleArn ≠ RsaKeyPair ∧
    EcsRamRole ≠ AK ∧ EcsRamRole ≠ StsToken ∧ EcsRamRole ≠ RamRoleArn ∧
    EcsRamRole ≠ RsaKeyPair ∧ RsaKeyPair ≠ AK ∧ RsaKeyPair ≠ StsToken ∧
    RsaKeyPair ≠ RamRoleArn ∧ RsaKeyPair ≠ EcsRamRole := by
  decide

theorem doConfigure_load_error (profileName mode : GoString) (σ : World) (id : Nat)
    (hload : σ.persisted = Except.error id) :
    doConfigure profileName mode σ = some (some (Error.external id), σ) := by
  unfold doConfigure LoadConfiguration
  rw [hload]

theorem doConfigure_invalid (profileName mode : GoString) (σ : World) (conf : Configuration)
    (hload : σ.persisted = Except.ok conf) (hne : mode ≠ []) (hinv : ¬ validMode mode) :
    doConfigure profileName mode σ = some (some (Error.unexpectedMode mode),
      { σ with trace := σ.trace ++ [Event.printf
        "Configuring profile \x27%s\x27 in \x27%s\x27 authenticate mode...\n"
        [profileName, mode]] }) := by
  unfold validMode at hinv
  have h1 : mode ≠ AK := fun h => hinv (Or.inl h)
  have h2 : mode ≠ StsToken := fun h => hinv (Or.inr (Or.inl h))
  have h3 : mode ≠ RamRoleArn := fun h => hinv (Or.inr (Or.inr (Or.inl h)))
  have h4 : mode ≠ EcsRamRole := fun h => hinv (Or.inr (Or.inr (Or.inr (Or.inl h))))
  have h5 : mode ≠ RsaKeyPair := fun h => hinv (Or.inr (Or.inr (Or.inr (Or.inr h))))
  have hc : ∀ cp τ, collectModeFields mode cp τ =
      some (Except.error (Error.unexpectedMode mode)) := by
    intro cp τ
    simp [collectModeFields, hne, h1, h2, h3, h4, h5]
  unfold doConfigure LoadConfiguration
  rw [hload]
  simp only [hc, Option.bind_eq_bind, Option.some_bind, bind, pure]
  simp [Printf, World.emit, hload]

/-! ## The claims -/

/-- C1 (the code departs from the claim): in mode `RsaKeyPair`, when the file
named by the key-file token cannot be read, `doConfigure` does not fail. The
error `configureRsaKeyPair` returns is dropped: the common-field step runs on
the next two tokens, the profile (with `Mode = RsaKeyPair` and nothing else of
the mode set) is handed to `PutProfile`, `SaveConfiguration` is called, and
what `doConfigure` returns is whatever `SaveConfiguration` returned. -/
theorem C1_key_file_error_is_dropped (profileName : GoString) (σ : World)
    (conf : Configuration) (id : Nat)
    (hload : σ.persisted = Except.ok conf)
    (hread : σ.files (token σ.stdin 0) = Except.error id) :
    configureRsaKeyPair { startProfile conf profileName with Mode := RsaKeyPair } σ
        = some (some (Error.readKeyFile (token σ.stdin 0) (Error.external id)),
            { startProfile conf profileName with Mode := RsaKeyPair },
            { σ with stdin := σ.stdin.tail,
                     trace := σ.trace ++ [Event.printf "Rsa Private Key File: " []] }) ∧
    ∃ σ', doConfigure profileName RsaKeyPair σ
        = some (σ.saveFailure.map Error.external, σ') ∧
      putProfiles σ'.trace = putProfiles σ.trace ++
        [{ startProfile conf profileName with
            Mode := RsaKeyPair,
            RegionId := keepOnEmpty (startProfile conf profileName).RegionId (token σ.stdin 1),
            OutputFormat := ascii "json",
            Language := normalizeLanguage
              (keepOnEmpty (startProfile conf profileName).Language (token σ.stdin 2)) }] ∧
      (savedConfigurations σ'.trace).length = (savedConfigurations σ.trace).length + 1 := by
  refine ⟨configureRsaKeyPair_error _ _ _ hread, ?_⟩
  obtain ⟨σ', h1, h2, h3, -⟩ := doConfigure_run profileName RsaKeyPair σ conf hload
    (Or.inr (Or.inr (Or.inr (Or.inr (Or.inr rfl)))))
  refine ⟨σ', h1, ?_, ?_⟩
  · rw [h2]
    have hRsa : RsaKeyPair ≠ [] ∧ RsaKeyPair ≠ AK ∧ RsaKeyPair ≠ StsToken ∧
        RsaKeyPair ≠ RamRoleArn ∧ RsaKeyPair ≠ EcsRamRole := by decide
    simp [runProfile, modeResult, commonResult, hRsa, hread, token_tail]
  · rw [h3]
    simp

/-- C1 at the failing input: an empty store, profile `default`, mode
`RsaKeyPair`, no readable file, tokens `/no/such/key.pem`, `cn-hangzhou` and
an empty line, saving succeeds. `doConfigure` returns `nil` and has put and
saved a profile. -/
theorem C1_key_file_error_is_dropped_witness :
    ∃ σ', doConfigure (ascii "default") RsaKeyPair
        (World.start [ascii "/no/such/key.pem", ascii "cn-hangzhou", []] noFiles
          (Except.ok emptyConfiguration) none) = some (none, σ') ∧
      putProfiles σ'.trace =
        [{ Name := ascii "default", Mode := RsaKeyPair, AccessKeyId := [],
           AccessKeySecret := [], StsToken := [], RamRoleArn := [], RoleSessionName := [],
           ExpiredSeconds := 0, RamRoleName := [], PrivateKey := [], KeyPairName := [],
           RegionId := ascii "cn-hangzhou", OutputFormat := ascii "json",
           Language := ascii "en" }] ∧
      (savedConfigurations σ'.trace).length = 1 := by
  obtain ⟨σ', h1, h2, h3⟩ := (C1_key_file_error_is_dropped (ascii "default")
    (World.start [ascii "/no/such/key.pem", ascii "cn-hangzhou", []] noFiles
      (Except.ok emptyConfiguration) none) emptyConfiguration 2 rfl rfl).2
  refine ⟨σ', h1, ?_, ?_⟩
  · rw [h2]
    decide
  · rw [h3]
    rfl

/-- C2: for every string `s` (a Go string, so `len(s)` is an `int`) and every
`int` `n >= 0`, `MosaicString(s, n)` returns a string of the length of `s`;
when `len(s) > n` it is `len(s) - n` bytes `*` followed by the last `n` bytes
of `s`, and when `len(s) <= n` it is `len(s)` bytes `*`. -/
theorem C2_MosaicString (s : GoString) (n : Int)
    (hn : 0 ≤ n) (hn63 : n < 2 ^ 63) (hs : len s < 2 ^ 63) :
    ∃ out, MosaicString s n = some out ∧ out.length = s.length ∧
      (len s > n →
        out = List.replicate (s.length - n.toNat) starByte ++ s.drop (s.length - n.toNat) ∧
        (s.drop (s.length - n.toNat)).length = n.toNat) ∧
      (len s ≤ n → out = List.replicate s.length starByte) := by
  have hlen : len s = (s.length : Int) := rfl
  have hw : wrapInt (len s - n) = len s - n := wrapInt_of_range _ (by omega) (by omega)
  unfold MosaicString
  rw [hw]
  by_cases hr : len s - n > 0
  · have h1 : ¬ len s - n < 0 := by omega
    have h2 : 0 ≤ len s - n ∧ len s - n ≤ len s := by omega
    have h3 : (len s - n).toNat = s.length - n.toNat := by omega
    refine ⟨List.replicate (s.length - n.toNat) starByte ++ s.drop (s.length - n.toNat),
      ?_, ?_, ?_, ?_⟩
    · rw [if_pos hr]
      simp [Repeat, sliceFrom, h1, h2, h3, flatten_replicate_star]
    · simp
    · intro _
      refine ⟨rfl, ?_⟩
      simp
      omega
    · intro h
      omega
  · have h1 : ¬ len s < 0 := by omega
    refine ⟨List.replicate s.length starByte, ?_, ?_, ?_, ?_⟩
    · rw [if_neg hr]
      simp [Repeat, h1, hlen, flatten_replicate_star]
    · simp
    · intro h
      omega
    · intro _
      rfl

/-- C2 on the two examples of the claim: `MosaicString("ABCDEFGHIJ", 3)` is
`"*******HIJ"` and `MosaicString("AB", 3)` is `"**"`. -/
theorem C2_MosaicString_witness :
    MosaicString (ascii "ABCDEFGHIJ") 3 = some (ascii "*******HIJ") ∧
    MosaicString (ascii "AB") 3 = some (ascii "**") := by
  obtain ⟨o1, h1, -, h1a, -⟩ := C2_MosaicString (ascii "ABCDEFGHIJ") 3 (by decide)
    (by norm_num) (by simp [len, ascii])
  obtain ⟨o2, h2, -, -, h2b⟩ := C2_MosaicString (ascii "AB") 3 (by decide)
    (by norm_num) (by simp [len, ascii])
  rw [h1, h2, (h1a (by decide)).1, h2b (by decide)]
  decide

/-- C3: for every explicit mode among `AK`, `StsToken`, `RamRoleArn` and
`EcsRamRole`, every starting profile and every token sequence, `doConfigure`
puts a profile whose `Mode` is that mode and whose fields took the tokens in
the order of the mode's row (each through `ReadInput`, so an empty token
keeps the field), then the next token went to `RegionId` and the next to
`Language` (which is then normalised); `OutputFormat` is `json`. -/
theorem C3_explicit_mode_fields (profileName mode : GoString) (σ : World)
    (conf : Configuration)
    (hload : σ.persisted = Except.ok conf)
    (hmode : mode = AK ∨ mode = StsToken ∨ mode = RamRoleArn ∨ mode = EcsRamRole) :
    ∃ σ' p, doConfigure profileName mode σ = some (σ.saveFailure.map Error.external, σ') ∧
      putProfiles σ'.trace = putProfiles σ.trace ++ [p] ∧
      p.Mode = mode ∧ p.OutputFormat = ascii "json" ∧
      (mode = AK →
        p.AccessKeyId = keepOnEmpty (startProfile conf profileName).AccessKeyId
          (token σ.stdin 0) ∧
        p.AccessKeySecret = keepOnEmpty (startProfile conf profileName).AccessKeySecret
          (token σ.stdin 1) ∧
        p.RegionId = keepOnEmpty (startProfile conf profileName).RegionId (token σ.stdin 2) ∧
        p.Language = normalizeLanguage
          (keepOnEmpty (startProfile conf profileName).Language (token σ.stdin 3))) ∧
      (mode = StsToken →
        p.AccessKeyId = keepOnEmpty (startProfile conf profileName).AccessKeyId
          (token σ.stdin 0) ∧
        p.AccessKeySecret = keepOnEmpty (startProfile conf profileName).AccessKeySecret
          (token σ.stdin 1) ∧
        p.StsToken = keepOnEmpty (startProfile conf profileName).StsToken (token σ.stdin 2) ∧
        p.RegionId = keepOnEmpty (startProfile conf profileName).RegionId (token σ.stdin 3) ∧
        p.Language = normalizeLanguage
          (keepOnEmpty (startProfile conf profileName).Language (token σ.stdin 4))) ∧
      (mode = RamRoleArn →
        p.AccessKeyId = keepOnEmpty (startProfile conf profileName).AccessKeyId
          (token σ.stdin 0) ∧
        p.AccessKeySecret = keepOnEmpty (startProfile conf profileName).AccessKeySecret
          (token σ.stdin 1) ∧
        p.RamRoleArn = keepOnEmpty (startProfile conf profileName).RamRoleArn
          (token σ.stdin 2) ∧
        p.RoleSessionName = keepOnEmpty (startProfile conf profileName).RoleSessionName
          (token σ.stdin 3) ∧
        p.RegionId = keepOnEmpty (startProfile conf profileName).RegionId (token σ.stdin 4) ∧
        p.Language = normalizeLanguage
          (keepOnEmpty (startProfile conf profileName).Language (token σ.stdin 5))) ∧
      (mode = EcsRamRole →
        p.RamRoleName = keepOnEmpty (startProfile conf profileName).RamRoleName
          (token σ.stdin 0) ∧
        p.RegionId = keepOnEmpty (startProfile conf profileName).RegionId (token σ.stdin 1) ∧
        p.Language = normalizeLanguage
          (keepOnEmpty (startProfile conf profileName).Language (token σ.stdin 2))) := by
  have hd := modeNames_distinct
  have hv : mode = [] ∨ validMode mode := by
    unfold validMode
    tauto
  obtain ⟨σ', h1, h2, -⟩ := doConfigure_run profileName mode σ conf hload hv
  refine ⟨σ', _, h1, h2, ?_⟩
  rcases hmode with h | h | h | h <;> subst h <;>
    simp [runProfile, modeResult, commonResult, token_tail, hd]

/-- C3 on the example of the claim: mode `AK`, a new profile, tokens
`AKID123456789012345`, `SECRETVALUE`, `cn-hangzhou` and an empty line. -/
theorem C3_explicit_mode_fields_witness :
    ∃ σ' p, doConfigure (ascii "default") AK
        (World.start [ascii "AKID123456789012345", ascii "SECRETVALUE", ascii "cn-hangzhou", []]
          noFiles (Except.ok emptyConfiguration) none) = some (none, σ') ∧
      putProfiles σ'.trace = [p] ∧
      p.Mode = AK ∧ p.AccessKeyId = ascii "AKID123456789012345" ∧
      p.AccessKeySecret = ascii "SECRETVALUE" ∧ p.RegionId = ascii "cn-hangzhou" ∧
      p.OutputFormat = ascii "json" ∧ p.Language = ascii "en" := by
  obtain ⟨σ', p, h1, h2, h3, h4, h5, -⟩ := C3_explicit_mode_fields (ascii "default") AK
    (World.start [ascii "AKID123456789012345", ascii "SECRETVALUE", ascii "cn-hangzhou", []]
      noFiles (Except.ok emptyConfiguration) none) emptyConfiguration rfl (Or.inl rfl)
  obtain ⟨h6, h7, h8, h9⟩ := h5 rfl
  refine ⟨σ', p, h1, h2, h3, ?_, ?_, ?_, h4, ?_⟩
  · rw [h6]
    decide
  · rw [h7]
    decide
  · rw [h8]
    decide
  · rw [h9]
    decide

/-- C4 fails as stated: (a) with the empty mode, on a stored profile in mode
`RamRoleArn` whose `ExpiredSeconds` is 0, `doConfigure` puts a profile with
`Mode = RamRoleArn` and `ExpiredSeconds = 0`; (b) with mode `RsaKeyPair` and
an unreadable key file, on a new profile, it puts a profile with
`Mode = RsaKeyPair` and `ExpiredSeconds = 0`. -/
theorem C4_expired_seconds_counterexample :
    (∃ σ' p, doConfigure (ascii "default") []
        (World.start [] noFiles (Except.ok roleStore) none) = some (none, σ') ∧
      putProfiles σ'.trace = [p] ∧ p.Mode = RamRoleArn ∧ p.ExpiredSeconds = 0) ∧
    (∃ σ' p, doConfigure (ascii "default") RsaKeyPair
        (World.start [ascii "/no/such/key.pem"] noFiles (Except.ok emptyConfiguration) none)
          = some (none, σ') ∧
      putProfiles σ'.trace = [p] ∧ p.Mode = RsaKeyPair ∧ p.ExpiredSeconds = 0) := by
  constructor
  · obtain ⟨σ', h1, h2, -⟩ := doConfigure_run (ascii "default") []
      (World.start [] noFiles (Except.ok roleStore) none) roleStore rfl (Or.inl rfl)
    exact ⟨σ', _, h1, h2, by decide, by decide⟩
  · obtain ⟨σ', h1, h2, -⟩ := doConfigure_run (ascii "default") RsaKeyPair
      (World.start [ascii "/no/such/key.pem"] noFiles (Except.ok emptyConfiguration) none)
      emptyConfiguration rfl (Or.inr (by decide))
    exact ⟨σ', _, h1, h2, by decide, by decide⟩

/-- C4 as amended: for every store, profile name and token sequence, a run of
`doConfigure` with one of the five modes or the empty mode, in which the key
file is read when the mode is `RsaKeyPair` and the starting profile already
has the property when the mode is empty, puts a profile that has
`ExpiredSeconds = 900` whenever its `Mode` is `RamRoleArn` or `RsaKeyPair`.
With an explicit mode the profile put has that mode. -/
theorem C4_expired_seconds (profileName mode : GoString) (σ : World) (conf : Configuration)
    (hload : σ.persisted = Except.ok conf)
    (hmode : mode = [] ∨ validMode mode)
    (hread : mode = RsaKeyPair → ∃ buf, σ.files (token σ.stdin 0) = Except.ok buf)
    (hstart : mode = [] →
      (startProfile conf profileName).Mode = RamRoleArn ∨
        (startProfile conf profileName).Mode = RsaKeyPair →
      (startProfile conf profileName).ExpiredSeconds = 900) :
    ∃ σ' p, doConfigure profileName mode σ = some (σ.saveFailure.map Error.external, σ') ∧
      putProfiles σ'.trace = putProfiles σ.trace ++ [p] ∧
      (validMode mode → p.Mode = mode) ∧
      (p.Mode = RamRoleArn ∨ p.Mode = RsaKeyPair → p.ExpiredSeconds = 900) := by
  have hd := modeNames_distinct
  obtain ⟨σ', h1, h2, -⟩ := doConfigure_run profileName mode σ conf hload hmode
  refine ⟨σ', _, h1, h2, ?_⟩
  rcases hmode with h | h | h | h | h | h <;> subst h
  · have hs := hstart rfl
    simpa [runProfile, modeResult, commonResult, hd, validMode] using hs
  · simp [runProfile, modeResult, commonResult, hd]
  · simp [runProfile, modeResult, commonResult, hd]
  · simp [runProfile, modeResult, commonResult, hd]
  · simp [runProfile, modeResult, commonResult, hd]
  · obtain ⟨buf, hb⟩ := hread rfl
    simp [runProfile, modeResult, commonResult, hd, hb]

/-- C4 on the example of the claim: mode `RamRoleArn` with
`RamRoleArn = acs:ram::123:role/test` and `RoleSessionName = sess1` gives
`ExpiredSeconds = 900`. -/
theorem C4_expired_seconds_witness :
    ∃ σ' p, doConfigure (ascii "default") RamRoleArn
        (World.start [ascii "AKID123456789012345", ascii "SECRETVALUE",
            ascii "acs:ram::123:role/test", ascii "sess1", ascii "cn-hangzhou", []]
          noFiles (Except.ok emptyConfiguration) none) = some (none, σ') ∧
      putProfiles σ'.trace = [p] ∧ p.Mode = RamRoleArn ∧ p.ExpiredSeconds = 900 := by
  obtain ⟨σ', p, h1, h2, h3, h4⟩ := C4_expired_seconds (ascii "default") RamRoleArn
    (World.start [ascii "AKID123456789012345", ascii "SECRETVALUE",
        ascii "acs:ram::123:role/test", ascii "sess1", ascii "cn-hangzhou", []]
      noFiles (Except.ok emptyConfiguration) none) emptyConfiguration rfl
    (Or.inr (by decide)) (fun h => absurd h (by decide)) (fun h => absurd h (by decide))
  exact ⟨σ', p, h1, h2, h3 (by decide), h4 (Or.inl (h3 (by decide)))⟩

/-- C5 fails as stated: with the empty mode on a profile freshly created by
`NewProfile`, `doConfigure` puts a profile whose `Mode` is the empty string,
which is none of the five variants. -/
theorem C5_mode_variant_counterexample :
    ∃ σ' p, doConfigure (ascii "default") []
        (World.start [] noFiles (Except.ok emptyConfiguration) none) = some (none, σ') ∧
      putProfiles σ'.trace = [p] ∧ p.Mode = [] ∧ ¬ validMode p.Mode := by
  obtain ⟨σ', h1, h2, -⟩ := doConfigure_run (ascii "default") []
    (World.start [] noFiles (Except.ok emptyConfiguration) none) emptyConfiguration rfl
    (Or.inl rfl)
  exact ⟨σ', _, h1, h2, by decide, by decide⟩

/-- C5 as amended: for every profile name, store and token sequence, a run
of `doConfigure` with one of the five mode names puts a profile whose `Mode`
is that name, hence one of the five variants; a run with the empty mode puts
a profile whose `Mode` is the `Mode` of the starting profile (the empty
string for one freshly created by `NewProfile`). -/
theorem C5_mode_variant (profileName mode : GoString) (σ : World) (conf : Configuration)
    (hload : σ.persisted = Except.ok conf)
    (hmode : mode = [] ∨ validMode mode) :
    ∃ σ' p, doConfigure profileName mode σ = some (σ.saveFailure.map Error.external, σ') ∧
      putProfiles σ'.trace = putProfiles σ.trace ++ [p] ∧
      (validMode mode → p.Mode = mode ∧ validMode p.Mode) ∧
      (mode = [] → p.Mode = (startProfile conf profileName).Mode) ∧
      (mode = [] → conf.GetProfile profileName = none → p.Mode = []) := by
  have hd := modeNames_distinct
  obtain ⟨σ', h1, h2, -⟩ := doConfigure_run profileName mode σ conf hload hmode
  refine ⟨σ', _, h1, h2, ?_⟩
  rcases hmode with h | h | h | h | h | h <;> subst h
  · refine ⟨?_, ?_, ?_⟩
    · intro hv
      exact absurd hv (by decide)
    · intro _
      simp [runProfile, modeResult, commonResult]
    · intro _ hnone
      simp [runProfile, modeResult, commonResult, startProfile, hnone,
        Configuration.NewProfile]
  · simp [runProfile, modeResult, commonResult, hd, validMode]
  · simp [runProfile, modeResult, commonResult, hd, validMode]
  · simp [runProfile, modeResult, commonResult, hd, validMode]
  · simp [runProfile, modeResult, commonResult, hd, validMode]
  · cases hf : σ.files (token σ.stdin 0) <;>
      simp [runProfile, modeResult, commonResult, hd, validMode, hf]

/-- C5 as amended, on a new profile `default` configured in mode `StsToken`. -/
theorem C5_mode_variant_witness :
    ∃ σ' p, doConfigure (ascii "default") StsToken
        (World.start [] noFiles (Except.ok emptyConfiguration) none) = some (none, σ') ∧
      putProfiles σ'.trace = [p] ∧ p.Mode = StsToken ∧ validMode p.Mode := by
  obtain ⟨σ', p, h1, h2, h3, -⟩ := C5_mode_variant (ascii "default") StsToken
    (World.start [] noFiles (Except.ok emptyConfiguration) none) emptyConfiguration rfl
    (Or.inr (by decide))
  exact ⟨σ', p, h1, h2, h3 (by decide)⟩

/-- C6 fails as stated: when `LoadConfiguration` fails, `doConfigure` returns
the load error before it looks at the mode (lines 44-47), so for the
non-empty invalid mode string `ak` it returns that load error and not the
invalid-mode error. -/
theorem C6_invalid_mode_counterexample :
    (∃ σ', doConfigure (ascii "default") (ascii "ak")
        (World.start [ascii "AKID"] noFiles (Except.error 1) none)
          = some (some (Error.external 1), σ')) ∧
    ascii "ak" ≠ [] ∧ ¬ validMode (ascii "ak") ∧
    ¬ ∀ (profileName mode : GoString) (σ : World), mode ≠ [] → ¬ validMode mode →
      ∃ σ', doConfigure profileName mode σ = some (some (Error.unexpectedMode mode), σ') := by
  have hrun := doConfigure_load_error (ascii "default") (ascii "ak")
    (World.start [ascii "AKID"] noFiles (Except.error 1) none) 1 rfl
  refine ⟨⟨_, hrun⟩, by decide, by decide, ?_⟩
  intro h
  obtain ⟨σ', hσ⟩ := h (ascii "default") (ascii "ak")
    (World.start [ascii "AKID"] noFiles (Except.error 1) none) (by decide) (by decide)
  rw [hrun] at hσ
  have he := congrArg (fun r => r.map Prod.fst) hσ
  simp at he

/-- C6 as amended: when `LoadConfiguration` succeeds, for every non-empty
mode string that is not exactly one of the five mode names, `doConfigure`
returns the invalid-mode error, leaves standard input and the persisted
store as they were, and calls neither `PutProfile` nor `SaveConfiguration`;
for each of the five names it returns, and what it returns is not an
invalid-mode error. -/
theorem C6_invalid_mode (profileName mode : GoString) (σ : World) (conf : Configuration)
    (hload : σ.persisted = Except.ok conf) :
    (mode ≠ [] → ¬ validMode mode →
      ∃ σ', doConfigure profileName mode σ = some (some (Error.unexpectedMode mode), σ') ∧
        σ'.stdin = σ.stdin ∧ σ'.persisted = σ.persisted ∧
        putProfiles σ'.trace = putProfiles σ.trace ∧
        savedConfigurations σ'.trace = savedConfigurations σ.trace) ∧
    (validMode mode →
      ∃ e σ', doConfigure profileName mode σ = some (e, σ') ∧
        ∀ m, e ≠ some (Error.unexpectedMode m)) := by
  constructor
  · intro hne hinv
    refine ⟨_, doConfigure_invalid profileName mode σ conf hload hne hinv, rfl, rfl, ?_, ?_⟩
    · simp [putProfiles_append, putProfiles]
    · simp [savedConfigurations_append, savedConfigurations]
  · intro hv
    obtain ⟨σ', h1, -⟩ := doConfigure_run profileName mode σ conf hload (Or.inr hv)
    refine ⟨_, σ', h1, ?_⟩
    intro m
    cases σ.saveFailure <;> simp

/-- C6 as amended, on the mode string `ak`, which differs from `AK` only in
case, with a loaded store and a token waiting on standard input: the
invalid-mode error, the token still unread, nothing put, nothing saved. -/
theorem C6_invalid_mode_witness :
    ∃ σ', doConfigure (ascii "default") (ascii "ak")
        (World.start [ascii "AKID"] noFiles (Except.ok emptyConfiguration) none)
          = some (some (Error.unexpectedMode (ascii "ak")), σ') ∧
      σ'.stdin = [ascii "AKID"] ∧ σ'.persisted = Except.ok emptyConfiguration ∧
      putProfiles σ'.trace = [] ∧ savedConfigurations σ'.trace = [] := by
  exact (C6_invalid_mode (ascii "default") (ascii "ak")
    (World.start [ascii "AKID"] noFiles (Except.ok emptyConfiguration) none)
    emptyConfiguration rfl).1 (by decide) (by decide)

/-- C7 fails as stated: (a) in mode `RsaKeyPair`, on a profile whose
`KeyPairName` is `old`, with the key file read and an empty token at the
key-pair-name prompt, the profile put has an empty `KeyPairName`: the empty
token did not keep the value; (b) in mode `AK`, the non-empty token `fr` at
the language prompt does not replace the value: `Language` is `en`. -/
theorem C7_keep_on_empty_counterexample :
    (∃ σ' p, doConfigure (ascii "default") RsaKeyPair
        (World.start [ascii "/key.pem", []] oneKeyFile (Except.ok roleStore) none)
          = some (none, σ') ∧
      putProfiles σ'.trace = [p] ∧
      (startProfile roleStore (ascii "default")).KeyPairName = ascii "old" ∧
      p.KeyPairName = [] ∧
      ¬ KeptOrReplaced (startProfile roleStore (ascii "default")).KeyPairName [] p.KeyPairName) ∧
    (∃ σ' p, doConfigure (ascii "default") AK
        (World.start [ascii "AKID", ascii "SECRET", ascii "cn-hangzhou", ascii "fr"] noFiles
          (Except.ok emptyConfiguration) none) = some (none, σ') ∧
      putProfiles σ'.trace = [p] ∧ p.Language = ascii "en" ∧
      ¬ KeptOrReplaced (startProfile emptyConfiguration (ascii "default")).Language
        (ascii "fr") p.Language) := by
  constructor
  · obtain ⟨σ', h1, h2, -⟩ := doConfigure_run (ascii "default") RsaKeyPair
      (World.start [ascii "/key.pem", []] oneKeyFile (Except.ok roleStore) none) roleStore rfl
      (Or.inr (by decide))
    refine ⟨σ', _, h1, h2, by decide, by decide, ?_⟩
    intro h
    exact absurd (h.1 rfl) (by decide)
  · obtain ⟨σ', h1, h2, -⟩ := doConfigure_run (ascii "default") AK
      (World.start [ascii "AKID", ascii "SECRET", ascii "cn-hangzhou", ascii "fr"] noFiles
        (Except.ok emptyConfiguration) none) emptyConfiguration rfl (Or.inr (by decide))
    refine ⟨σ', _, h1, h2, by decide, ?_⟩
    intro h
    exact absurd (h.2 (by decide)) (by decide)

/-- C7 as amended: keep-on-empty holds for every field prompted for in the
modes `AK`, `StsToken`, `RamRoleArn`, `EcsRamRole` and the empty mode, and for
`RegionId` in every mode; `Language` is the keep-on-empty value, normalised;
in mode `RsaKeyPair`, when the key file is read, `PrivateKey` is the content
of the file and `KeyPairName` is the token read, empty when the token is. -/
theorem C7_keep_on_empty (profileName mode : GoString) (σ : World) (conf : Configuration)
    (hload : σ.persisted = Except.ok conf)
    (hmode : mode = [] ∨ validMode mode) :
    ∃ σ' p, doConfigure profileName mode σ = some (σ.saveFailure.map Error.external, σ') ∧
      putProfiles σ'.trace = putProfiles σ.trace ++ [p] ∧
      (mode = [] ∨ mode = AK →
        KeptOrReplaced (startProfile conf profileName).AccessKeyId (token σ.stdin 0) p.AccessKeyId ∧
        KeptOrReplaced (startProfile conf profileName).AccessKeySecret (token σ.stdin 1)
          p.AccessKeySecret ∧
        KeptOrReplaced (startProfile conf profileName).RegionId (token σ.stdin 2) p.RegionId ∧
        p.Language = normalizeLanguage
          (keepOnEmpty (startProfile conf profileName).Language (token σ.stdin 3))) ∧
      (mode = StsToken →
        KeptOrReplaced (startProfile conf profileName).AccessKeyId (token σ.stdin 0) p.AccessKeyId ∧
        KeptOrReplaced (startProfile conf profileName).AccessKeySecret (token σ.stdin 1)
          p.AccessKeySecret ∧
        KeptOrReplaced (startProfile conf profileName).StsToken (token σ.stdin 2) p.StsToken ∧
        KeptOrReplaced (startProfile conf profileName).RegionId (token σ.stdin 3) p.RegionId ∧
        p.Language = normalizeLanguage
          (keepOnEmpty (startProfile conf profileName).Language (token σ.stdin 4))) ∧
      (mode = RamRoleArn →
        KeptOrReplaced (startProfile conf profileName).AccessKeyId (token σ.stdin 0) p.AccessKeyId ∧
        KeptOrReplaced (startProfile conf profileName).AccessKeySecret (token σ.stdin 1)
          p.AccessKeySecret ∧
        KeptOrReplaced (startProfile conf profileName).RamRoleArn (token σ.stdin 2) p.RamRoleArn ∧
        KeptOrReplaced (startProfile conf profileName).RoleSessionName (token σ.stdin 3)
          p.RoleSessionName ∧
        KeptOrReplaced (startProfile conf profileName).RegionId (token σ.stdin 4) p.RegionId ∧
        p.Language = normalizeLanguage
          (keepOnEmpty (startProfile conf profileName).Language (token σ.stdin 5))) ∧
      (mode = EcsRamRole →
        KeptOrReplaced (startProfile conf profileName).RamRoleName (token σ.stdin 0) p.RamRoleName ∧
        KeptOrReplaced (startProfile conf profileName).RegionId (token σ.stdin 1) p.RegionId ∧
        p.Language = normalizeLanguage
          (keepOnEmpty (startProfile conf profileName).Language (token σ.stdin 2))) ∧
      (mode = RsaKeyPair → ∀ buf, σ.files (token σ.stdin 0) = Except.ok buf →
        p.PrivateKey = buf ∧ p.KeyPairName = token σ.stdin 1 ∧
        KeptOrReplaced (startProfile conf profileName).RegionId (token σ.stdin 2) p.RegionId ∧
        p.Language = normalizeLanguage
          (keepOnEmpty (startProfile conf profileName).Language (token σ.stdin 3))) := by
  have hd := modeNames_distinct
  obtain ⟨σ', h1, h2, -⟩ := doConfigure_run profileName mode σ conf hload hmode
  refine ⟨σ', _, h1, h2, ?_⟩
  rcases hmode with h | h | h | h | h | h <;> subst h
  · simp [runProfile, modeResult, commonResult, token_tail, hd, keepOnEmpty_spec]
  · simp [runProfile, modeResult, commonResult, token_tail, hd, keepOnEmpty_spec]
  · simp [runProfile, modeResult, commonResult, token_tail, hd, keepOnEmpty_spec]
  · simp [runProfile, modeResult, commonResult, token_tail, hd, keepOnEmpty_spec]
  · simp [runProfile, modeResult, commonResult, token_tail, hd, keepOnEmpty_spec]
  · simp only [hd, false_or, false_implies, true_and, and_true, forall_const]
    intro buf hb
    simp [runProfile, modeResult, commonResult, token_tail, hd, keepOnEmpty_spec, hb]

/-- C7 as amended, on the stored profile `default` whose `AccessKeyId` is
`OLDID`, in mode `AK` with an empty line, then `NEWSECRET`, `cn-hangzhou` and
`zh`: the key id is kept, the other three fields take their tokens. -/
theorem C7_keep_on_empty_witness :
    ∃ σ' p, doConfigure (ascii "default") AK
        (World.start [[], ascii "NEWSECRET", ascii "cn-hangzhou", ascii "zh"] noFiles
          (Except.ok roleStore) none) = some (none, σ') ∧
      putProfiles σ'.trace = [p] ∧
      p.AccessKeyId = ascii "OLDID" ∧ p.AccessKeySecret = ascii "NEWSECRET" ∧
      p.RegionId = ascii "cn-hangzhou" ∧ p.Language = ascii "zh" := by
  obtain ⟨σ', p, h1, h2, h3, -⟩ := C7_keep_on_empty (ascii "default") AK
    (World.start [[], ascii "NEWSECRET", ascii "cn-hangzhou", ascii "zh"] noFiles
      (Except.ok roleStore) none) roleStore rfl (Or.inr (by decide))
  obtain ⟨h4, h5, h6, h7⟩ := h3 (Or.inr rfl)
  refine ⟨σ', p, h1, h2, ?_, ?_, ?_, ?_⟩
  · rw [h4.1 rfl]
    decide
  · exact h5.2 (by decide)
  · exact h6.2 (by decide)
  · rw [h7]
    decide

/-- C8: for every profile and every token read at the language prompt, after
the common-field block `Language` is `zh` or `en`: it is the keep-on-empty
value when that value is exactly `zh` or `en`, and `en` in every other case;
and every profile `doConfigure` puts has `Language` equal to `zh` or `en`. -/
theorem C8_language (cp : Profile) (τ : World)
    (profileName mode : GoString) (σ : World) (conf : Configuration)
    (hload : σ.persisted = Except.ok conf)
    (hmode : mode = [] ∨ validMode mode) :
    ((collectCommonFields cp τ).1.Language = ascii "zh" ∨
      (collectCommonFields cp τ).1.Language = ascii "en") ∧
    (keepOnEmpty cp.Language (token τ.stdin 1) = ascii "zh" ∨
        keepOnEmpty cp.Language (token τ.stdin 1) = ascii "en" →
      (collectCommonFields cp τ).1.Language = keepOnEmpty cp.Language (token τ.stdin 1)) ∧
    (¬ (keepOnEmpty cp.Language (token τ.stdin 1) = ascii "zh" ∨
        keepOnEmpty cp.Language (token τ.stdin 1) = ascii "en") →
      (collectCommonFields cp τ).1.Language = ascii "en") ∧
    ∃ σ' p, doConfigure profileName mode σ = some (σ.saveFailure.map Error.external, σ') ∧
      putProfiles σ'.trace = putProfiles σ.trace ++ [p] ∧
      (p.Language = ascii "zh" ∨ p.Language = ascii "en") := by
  have hnorm : ∀ l, normalizeLanguage l = ascii "zh" ∨ normalizeLanguage l = ascii "en" := by
    intro l
    unfold normalizeLanguage
    by_cases h : l = ascii "zh" ∨ l = ascii "en"
    · rw [if_pos h]
      exact h
    · rw [if_neg h]
      exact Or.inr rfl
  refine ⟨?_, ?_, ?_, ?_⟩
  · rw [collectCommonFields_eq]
    exact hnorm _
  · intro h
    rw [collectCommonFields_eq]
    simp only [normalizeLanguage, if_pos h]
  · intro h
    rw [collectCommonFields_eq]
    simp only [normalizeLanguage, if_neg h]
  · obtain ⟨σ', h1, h2, -⟩ := doConfigure_run profileName mode σ conf hload hmode
    exact ⟨σ', _, h1, h2, hnorm _⟩

/-- C8 on a profile whose `Language` is `zh`, with the token `fr` at the
language prompt: `Language` becomes `en`; and a run in mode `AK` with `fr` at
the language prompt puts a profile whose `Language` is `zh` or `en`. -/
theorem C8_language_witness :
    (collectCommonFields
        { emptyConfiguration.NewProfile (ascii "default") with Language := ascii "zh" }
        (World.start [ascii "cn-hangzhou", ascii "fr"] noFiles (Except.ok emptyConfiguration)
          none)).1.Language = ascii "en" ∧
    ∃ σ' p, doConfigure (ascii "default") AK
        (World.start [ascii "AKID", ascii "SECRET", ascii "cn-hangzhou", ascii "fr"] noFiles
          (Except.ok emptyConfiguration) none) = some (none, σ') ∧
      putProfiles σ'.trace = [p] ∧ (p.Language = ascii "zh" ∨ p.Language = ascii "en") := by
  obtain ⟨-, -, h3, h4⟩ := C8_language
    { emptyConfiguration.NewProfile (ascii "default") with Language := ascii "zh" }
    (World.start [ascii "cn-hangzhou", ascii "fr"] noFiles (Except.ok emptyConfiguration) none)
    (ascii "default") AK
    (World.start [ascii "AKID", ascii "SECRET", ascii "cn-hangzhou", ascii "fr"] noFiles
      (Except.ok emptyConfiguration) none) emptyConfiguration rfl (Or.inr (by decide))
  exact ⟨h3 (by decide), h4⟩

/-- C9: for every starting profile, whatever its `OutputFormat`, every mode
that is one of the five names or empty, and every token sequence, the
profile `doConfigure` puts has `OutputFormat` exactly `json`. -/
theorem C9_output_format (profileName mode : GoString) (σ : World) (conf : Configuration)
    (hload : σ.persisted = Except.ok conf)
    (hmode : mode = [] ∨ validMode mode) :
    ∃ σ' p, doConfigure profileName mode σ = some (σ.saveFailure.map Error.external, σ') ∧
      putProfiles σ'.trace = putProfiles σ.trace ++ [p] ∧
      p.OutputFormat = ascii "json" := by
  obtain ⟨σ', h1, h2, -⟩ := doConfigure_run profileName mode σ conf hload hmode
  exact ⟨σ', _, h1, h2, rfl⟩

/-- C9 on a stored profile whose `OutputFormat` is `xml`, with the empty mode
and the tokens `AKID`, `SECRET`, `cn-hangzhou`, `xml`. -/
theorem C9_output_format_witness :
    (startProfile xmlStore (ascii "default")).OutputFormat = ascii "xml" ∧
    ∃ σ' p, doConfigure (ascii "default") []
        (World.start [ascii "AKID", ascii "SECRET", ascii "cn-hangzhou", ascii "xml"] noFiles
          (Except.ok xmlStore) none) = some (none, σ') ∧
      putProfiles σ'.trace = [p] ∧ p.OutputFormat = ascii "json" := by
  refine ⟨by decide, ?_⟩
  exact C9_output_format (ascii "default") []
    (World.start [ascii "AKID", ascii "SECRET", ascii "cn-hangzhou", ascii "xml"] noFiles
      (Except.ok xmlStore) none) xmlStore rfl (Or.inl rfl)

/-- C10: called with the empty mode string, `doConfigure` collects exactly
the fields of `AK` (`AccessKeyId` from the first token, `AccessKeySecret`
from the second, no other mode field touched) and consumes the same input as
a run in mode `AK`; the profile it puts is the one the run in mode `AK` puts,
except that its `Mode` is the `Mode` the starting profile had. -/
theorem C10_empty_mode (profileName : GoString) (σ : World) (conf : Configuration)
    (hload : σ.persisted = Except.ok conf) :
    ∃ σ' p σAK pAK,
      doConfigure profileName [] σ = some (σ.saveFailure.map Error.external, σ') ∧
      putProfiles σ'.trace = putProfiles σ.trace ++ [p] ∧
      doConfigure profileName AK σ = some (σ.saveFailure.map Error.external, σAK) ∧
      putProfiles σAK.trace = putProfiles σ.trace ++ [pAK] ∧
      pAK.Mode = AK ∧
      p = { pAK with Mode := (startProfile conf profileName).Mode } ∧
      σ'.stdin = σAK.stdin ∧
      p.Mode = (startProfile conf profileName).Mode ∧
      p.AccessKeyId =
        keepOnEmpty (startProfile conf profileName).AccessKeyId (token σ.stdin 0) ∧
      p.AccessKeySecret =
        keepOnEmpty (startProfile conf profileName).AccessKeySecret (token σ.stdin 1) ∧
      p.StsToken = (startProfile conf profileName).StsToken ∧
      p.RamRoleArn = (startProfile conf profileName).RamRoleArn ∧
      p.RoleSessionName = (startProfile conf profileName).RoleSessionName ∧
      p.ExpiredSeconds = (startProfile conf profileName).ExpiredSeconds ∧
      p.RamRoleName = (startProfile conf profileName).RamRoleName ∧
      p.PrivateKey = (startProfile conf profileName).PrivateKey ∧
      p.KeyPairName = (startProfile conf profileName).KeyPairName := by
  have hd := modeNames_distinct
  obtain ⟨σ', h1, h2, -, h4, -⟩ := doConfigure_run profileName [] σ conf hload (Or.inl rfl)
  obtain ⟨σAK, k1, k2, -, k4, -⟩ := doConfigure_run profileName AK σ conf hload
    (Or.inr (Or.inl rfl))
  refine ⟨σ', _, σAK, _, h1, h2, k1, k2, ?_⟩
  rw [h4, k4]
  simp [runProfile, modeResult, commonResult, hd]

/-- C10 on the stored profile `default`, whose `Mode` is `RamRoleArn`, with
the tokens `NEWID` and `NEWSECRET`: both keys are taken, `Mode` stays
`RamRoleArn`. -/
theorem C10_empty_mode_witness :
    ∃ σ' p, doConfigure (ascii "default") []
        (World.start [ascii "NEWID", ascii "NEWSECRET"] noFiles (Except.ok roleStore) none)
          = some (none, σ') ∧
      putProfiles σ'.trace = [p] ∧ p.Mode = RamRoleArn ∧
      p.AccessKeyId = ascii "NEWID" ∧ p.AccessKeySecret = ascii "NEWSECRET" := by
  obtain ⟨σ', p, -, -, h1, h2, -, -, -, -, -, h3, h4, h5, -⟩ :=
    C10_empty_mode (ascii "default")
      (World.start [ascii "NEWID", ascii "NEWSECRET"] noFiles (Except.ok roleStore) none)
      roleStore rfl
  refine ⟨σ', p, h1, h2, ?_, ?_, ?_⟩
  · rw [h3]
    decide
  · rw [h4]
    decide
  · rw [h5]
    decide

/-- C11: every mode collector writes no field outside its row of the
dispatch table: the profile `configureAK` leaves differs from the one it got
at most in `AccessKeyId` and `AccessKeySecret`; `configureStsToken` at most in
those and `StsToken`; `configureRamRoleArn` at most in those, `RamRoleArn`,
`RoleSessionName` and `ExpiredSeconds`; `configureEcsRamRole` at most in
`RamRoleName`; `configureRsaKeyPair` at most in `PrivateKey`, `KeyPairName`
and `ExpiredSeconds`. In particular `ExpiredSeconds` is unchanged by the
collectors of `AK`, `StsToken` and `EcsRamRole`. -/
theorem C11_collectors_frame (cp : Profile) (σ : World) :
    (∃ e cp' σ', configureAK cp σ = some (e, cp', σ') ∧
      cp' = { cp with AccessKeyId := cp'.AccessKeyId, AccessKeySecret := cp'.AccessKeySecret } ∧
      cp'.ExpiredSeconds = cp.ExpiredSeconds) ∧
    (∃ e cp' σ', configureStsToken cp σ = some (e, cp', σ') ∧
      cp' = { cp with AccessKeyId := cp'.AccessKeyId, AccessKeySecret := cp'.AccessKeySecret,
                      StsToken := cp'.StsToken } ∧
      cp'.ExpiredSeconds = cp.ExpiredSeconds) ∧
    (∃ e cp' σ', configureRamRoleArn cp σ = some (e, cp', σ') ∧
      cp' = { cp with AccessKeyId := cp'.AccessKeyId, AccessKeySecret := cp'.AccessKeySecret,
                      RamRoleArn := cp'.RamRoleArn, RoleSessionName := cp'.RoleSessionName,
                      ExpiredSeconds := cp'.ExpiredSeconds }) ∧
    (∃ e cp' σ', configureEcsRamRole cp σ = some (e, cp', σ') ∧
      cp' = { cp with RamRoleName := cp'.RamRoleName } ∧
      cp'.ExpiredSeconds = cp.ExpiredSeconds) ∧
    (∃ e cp' σ', configureRsaKeyPair cp σ = some (e, cp', σ') ∧
      cp' = { cp with PrivateKey := cp'.PrivateKey, KeyPairName := cp'.KeyPairName,
                      ExpiredSeconds := cp'.ExpiredSeconds }) := by
  refine ⟨⟨_, _, _, configureAK_eq cp σ, rfl, rfl⟩, ⟨_, _, _, configureStsToken_eq cp σ, rfl, rfl⟩,
    ⟨_, _, _, configureRamRoleArn_eq cp σ, rfl⟩, ⟨_, _, _, configureEcsRamRole_eq cp σ, rfl, rfl⟩,
    ?_⟩
  cases hf : σ.files (token σ.stdin 0) with
  | error id => exact ⟨_, _, _, configureRsaKeyPair_error cp σ id hf, rfl⟩
  | ok buf => exact ⟨_, _, _, configureRsaKeyPair_ok cp σ buf hf, rfl⟩

/-- C12: for every string `s` (a Go string, so `len(s)` is an `int`) and every
`int` `n >= 0`, `GetLastChars(s, n)` returns the last `n` bytes of `s` when
`len(s) > n`, and `len(s)` bytes `*` when `len(s) <= n`, the boundary
`len(s) = n` included. -/
theorem C12_GetLastChars (s : GoString) (n : Int)
    (hn : 0 ≤ n) (hn63 : n < 2 ^ 63) (hs : len s < 2 ^ 63) :
    (len s > n →
      GetLastChars s n = some (s.drop (s.length - n.toNat)) ∧
      (s.drop (s.length - n.toNat)).length = n.toNat) ∧
    (len s ≤ n → GetLastChars s n = some (List.replicate s.length starByte)) := by
  have hlen : len s = (s.length : Int) := rfl
  have hw : wrapInt (len s - n) = len s - n := wrapInt_of_range _ (by omega) (by omega)
  unfold GetLastChars
  rw [hw]
  constructor
  · intro h
    have hr : len s - n > 0 := by omega
    have h2 : 0 ≤ len s - n ∧ len s - n ≤ len s := by omega
    have h3 : (len s - n).toNat = s.length - n.toNat := by omega
    rw [if_pos hr]
    refine ⟨?_, ?_⟩
    · simp [sliceFrom, h2, h3]
    · simp
      omega
  · intro h
    have hr : ¬ len s - n > 0 := by omega
    have h1 : ¬ len s < 0 := by omega
    rw [if_neg hr]
    simp [Repeat, h1, hlen, flatten_replicate_star]

/-- C12 on three inputs: `GetLastChars("ABCDEFGHIJ", 3)` is `"HIJ"`,
`GetLastChars("AB", 3)` is `"**"`, and on the boundary
`GetLastChars("ABC", 3)` is `"***"`, not `"ABC"`. -/
theorem C12_GetLastChars_witness :
    GetLastChars (ascii "ABCDEFGHIJ") 3 = some (ascii "HIJ") ∧
    GetLastChars (ascii "AB") 3 = some (ascii "**") ∧
    GetLastChars (ascii "ABC") 3 = some (ascii "***") := by
  have h1 := (C12_GetLastChars (ascii "ABCDEFGHIJ") 3 (by decide) (by norm_num)
    (by simp [len, ascii])).1 (by decide)
  have h2 := (C12_GetLastChars (ascii "AB") 3 (by decide) (by norm_num)
    (by simp [len, ascii])).2 (by decide)
  have h3 := (C12_GetLastChars (ascii "ABC") 3 (by decide) (by norm_num)
    (by simp [len, ascii])).2 (by decide)
  rw [h1.1, h2, h3]
  decide

theorem MosaicString_long (s : GoString) (n : Int)
    (hn : 0 ≤ n) (hs : len s < 2 ^ 63) (h : len s > n) :
    MosaicString s n =
      some (List.replicate (s.length - n.toNat) starByte ++ s.drop (s.length - n.toNat)) := by
  have hlen : len s = (s.length : Int) := rfl
  have hw : wrapInt (len s - n) = len s - n := wrapInt_of_range _ (by omega) (by omega)
  have hr : len s - n > 0 := by omega
  have h1 : ¬ len s - n < 0 := by omega
  have h2 : 0 ≤ len s - n ∧ len s - n ≤ len s := by omega
  have h3 : (len s - n).toNat = s.length - n.toNat := by omega
  unfold MosaicString
  rw [hw, if_pos hr]
  simp [Repeat, sliceFrom, h1, h2, h3, flatten_replicate_star]

theorem GetLastChars_long (s : GoString) (n : Int)
    (hn : 0 ≤ n) (hs : len s < 2 ^ 63) (h : len s > n) :
    GetLastChars s n = some (s.drop (s.length - n.toNat)) := by
  have hlen : len s = (s.length : Int) := rfl
  have hw : wrapInt (len s - n) = len s - n := wrapInt_of_range _ (by omega) (by omega)
  have hr : len s - n > 0 := by omega
  have h2 : 0 ≤ len s - n ∧ len s - n ≤ len s := by omega
  have h3 : (len s - n).toNat = s.length - n.toNat := by omega
  unfold GetLastChars
  rw [hw, if_pos hr]
  simp [sliceFrom, h2, h3]

theorem masks_short (s : GoString) (n : Int) (hn63 : n < 2 ^ 63) (h : len s ≤ n) :
    MosaicString s n = some (List.replicate s.length starByte) ∧
    GetLastChars s n = some (List.replicate s.length starByte) := by
  have hlen : len s = (s.length : Int) := rfl
  have hw : wrapInt (len s - n) = len s - n := wrapInt_of_range _ (by omega) (by omega)
  have hr : ¬ len s - n > 0 := by omega
  have h1 : ¬ len s < 0 := by omega
  unfold MosaicString GetLastChars
  rw [hw, if_neg hr, if_neg hr]
  simp [Repeat, h1, hlen, flatten_replicate_star]

/-- C13 fails as stated: there are no string `s` and `int` `n` with
`len(s) <= n` on which `MosaicString(s, n)` and `GetLastChars(s, n)` differ;
on a too-short secret both return `len(s)` bytes `*`. -/
theorem C13_masking_asymmetry_counterexample :
    ¬ ∃ (s : GoString) (n : Int), n < 2 ^ 63 ∧ len s ≤ n ∧
      MosaicString s n ≠ GetLastChars s n := by
  rintro ⟨s, n, hn63, hle, hne⟩
  obtain ⟨h1, h2⟩ := masks_short s n hn63 hle
  exact hne (h1.trans h2.symm)

/-- C13 as amended: for every string `s` and every `int` `n >= 0`,
`MosaicString(s, n)` and `GetLastChars(s, n)` differ exactly when
`len(s) > n` (the first keeps the leading `*`, the second does not); on a
too-short secret, `len(s) <= n`, they agree. -/
theorem C13_masking_difference (s : GoString) (n : Int)
    (hn : 0 ≤ n) (hn63 : n < 2 ^ 63) (hs : len s < 2 ^ 63) :
    MosaicString s n ≠ GetLastChars s n ↔ len s > n := by
  have hlen : len s = (s.length : Int) := rfl
  constructor
  · intro hne
    by_contra hle
    obtain ⟨h1, h2⟩ := masks_short s n hn63 (by omega)
    exact hne (h1.trans h2.symm)
  · intro h
    rw [MosaicString_long s n hn hs h, GetLastChars_long s n hn hs h]
    intro heq
    have hl := congrArg List.length (Option.some.inj heq)
    simp at hl
    omega

/-- C13 as amended, on `"ABCDEFGHIJ"` with 3, where the two differ
(`"*******HIJ"` against `"HIJ"`), and on `"AB"` with 3, where they agree. -/
theorem C13_masking_difference_witness :
    MosaicString (ascii "ABCDEFGHIJ") 3 ≠ GetLastChars (ascii "ABCDEFGHIJ") 3 ∧
    MosaicString (ascii "AB") 3 = GetLastChars (ascii "AB") 3 := by
  refine ⟨(C13_masking_difference (ascii "ABCDEFGHIJ") 3 (by decide) (by norm_num)
    (by simp [len, ascii])).2 (by decide), ?_⟩
  have h := (C13_masking_difference (ascii "AB") 3 (by decide) (by norm_num)
    (by simp [len, ascii])).not
  exact not_not.mp (h.2 (by decide))

theorem startProfile_name (conf : Configuration) (profileName : GoString) :
    (startProfile conf profileName).Name = profileName := by
  unfold startProfile Configuration.GetProfile
  cases h : conf.Profiles.find? (fun p => p.Name = profileName) with
  | none => rfl
  | some p =>
    have := List.find?_some h
    simpa using this

theorem modeResult_name (mode : GoString) (cp : Profile) (toks : List GoString)
    (files : GoString → Except Nat GoString) :
    (modeResult mode cp toks files).1.Name = cp.Name := by
  unfold modeResult
  split_ifs <;> try rfl
  split <;> rfl

theorem runProfile_name (profileName mode : GoString) (conf : Configuration)
    (toks : List GoString) (files : GoString → Except Nat GoString) :
    (runProfile profileName mode conf toks files).Name = profileName := by
  unfold runProfile commonResult
  simp [modeResult_name, startProfile_name]

theorem find_upsert_self (cp : Profile) (l : List Profile) :
    (upsert cp l).find? (fun p => p.Name = cp.Name) = some cp := by
  induction l with
  | nil => simp [upsert]
  | cons q qs ih =>
    unfold upsert
    by_cases h : q.Name = cp.Name
    · simp [h]
    · simp [h, ih]

theorem find_upsert_other (cp : Profile) (l : List Profile) (name : GoString)
    (hne : name ≠ cp.Name) :
    (upsert cp l).find? (fun p => p.Name = name) = l.find? (fun p => p.Name = name) := by
  induction l with
  | nil => simp [upsert, Ne.symm hne]
  | cons q qs ih =>
    unfold upsert
    by_cases h : q.Name = cp.Name
    · have hq : q.Name ≠ name := by
        rw [h]
        exact Ne.symm hne
      simp [h, Ne.symm hne, hq]
    · by_cases hq : q.Name = name
      · subst hq
        simp [h]
      · simp [h, hq, ih]

theorem mem_upsert_of_mem (cp q : Profile) (l : List Profile) (hq : q ∈ l)
    (hne : q.Name ≠ cp.Name) : q ∈ upsert cp l := by
  induction l with
  | nil => simp at hq
  | cons r rs ih =>
    unfold upsert
    by_cases h : r.Name = cp.Name
    · rcases List.mem_cons.mp hq with h1 | h1
      · subst h1
        exact absurd h hne
      · simp [h, h1]
    · rcases List.mem_cons.mp hq with h1 | h1
      · simp [h, h1]
      · simp [h, ih h1]

theorem mem_of_mem_upsert (cp q : Profile) (l : List Profile) (hq : q ∈ upsert cp l) :
    q = cp ∨ q ∈ l := by
  induction l with
  | nil =>
    simp [upsert] at hq
    exact Or.inl hq
  | cons r rs ih =>
    unfold upsert at hq
    by_cases h : r.Name = cp.Name
    · simp [h] at hq
      rcases hq with h1 | h1
      · exact Or.inl h1
      · exact Or.inr (List.mem_cons_of_mem _ h1)
    · simp [h] at hq
      rcases hq with h1 | h1
      · exact Or.inr (by simp [h1])
      · rcases ih h1 with h2 | h2
        · exact Or.inl h2
        · exact Or.inr (List.mem_cons_of_mem _ h2)

theorem doConfigure_trace (profileName mode : GoString) (σ : World) (conf : Configuration)
    (hload : σ.persisted = Except.ok conf) (hmode : mode = [] ∨ validMode mode) :
    ∃ σ' pre post,
      doConfigure profileName mode σ = some (σ.saveFailure.map Error.external, σ') ∧
      σ'.trace = σ.trace ++ pre ++
        [Event.putProfile (runProfile profileName mode conf σ.stdin σ.files),
         Event.saveConfiguration (runStore profileName mode conf σ.stdin σ.files)] ++ post ∧
      putProfiles pre = [] ∧ savedConfigurations pre = [] ∧
      putProfiles post = [] ∧ savedConfigurations post = [] := by
  obtain ⟨evs, hc, hp, hs⟩ := collectModeFields_eq mode (startProfile conf profileName)
    (Printf "Configuring profile \x27%s\x27 in \x27%s\x27 authenticate mode...\n"
      [profileName, mode] σ) hmode
  have hd : doConfigure profileName mode σ = some
      (saveProfile conf profileName
        (collectCommonFields (modeResult mode (startProfile conf profileName) σ.stdin σ.files).1
          { σ with
            stdin := (modeResult mode (startProfile conf profileName) σ.stdin σ.files).2,
            trace := σ.trace ++ [Event.printf
              "Configuring profile \x27%s\x27 in \x27%s\x27 authenticate mode...\n"
              [profileName, mode]] ++ evs }).1
        (collectCommonFields (modeResult mode (startProfile conf profileName) σ.stdin σ.files).1
          { σ with
            stdin := (modeResult mode (startProfile conf profileName) σ.stdin σ.files).2,
            trace := σ.trace ++ [Event.printf
              "Configuring profile \x27%s\x27 in \x27%s\x27 authenticate mode...\n"
              [profileName, mode]] ++ evs }).2) := by
    unfold doConfigure LoadConfiguration
    rw [hload]
    simp only [hc, Option.bind_eq_bind, Option.some_bind, bind, pure]
    simp [Printf, World.emit, hload]
  rw [hd]
  cases hsf : σ.saveFailure with
  | none =>
    refine ⟨{ σ with
        stdin := (modeResult mode (startProfile conf profileName) σ.stdin σ.files).2.tail.tail,
        persisted := Except.ok (runStore profileName mode conf σ.stdin σ.files),
        trace := σ.trace ++ ([Event.printf
        "Configuring profile \x27%s\x27 in \x27%s\x27 authenticate mode...\n"
        [profileName, mode]] ++ evs ++
      [Event.printf "Default Region Id [%s]: "
        [(modeResult mode (startProfile conf profileName) σ.stdin σ.files).1.RegionId],
       Event.printf "Default Output Format [%s]: json (Only support json))\n"
        [(modeResult mode (startProfile conf profileName) σ.stdin σ.files).1.OutputFormat],
       Event.printf "Default Language [zh|en] %s: "
        [(modeResult mode (startProfile conf profileName) σ.stdin σ.files).1.Language],
       Event.printf "Saving profile[%s] ..." [profileName]]) ++
          [Event.putProfile (runProfile profileName mode conf σ.stdin σ.files),
           Event.saveConfiguration (runStore profileName mode conf σ.stdin σ.files)] ++
          [Event.printf "Done.\n" [],
           Event.doHello (runProfile profileName mode conf σ.stdin σ.files)] },
      [Event.printf
        "Configuring profile \x27%s\x27 in \x27%s\x27 authenticate mode...\n"
        [profileName, mode]] ++ evs ++
      [Event.printf "Default Region Id [%s]: "
        [(modeResult mode (startProfile conf profileName) σ.stdin σ.files).1.RegionId],
       Event.printf "Default Output Format [%s]: json (Only support json))\n"
        [(modeResult mode (startProfile conf profileName) σ.stdin σ.files).1.OutputFormat],
       Event.printf "Default Language [zh|en] %s: "
        [(modeResult mode (startProfile conf profileName) σ.stdin σ.files).1.Language],
       Event.printf "Saving profile[%s] ..." [profileName]],
      [Event.printf "Done.\n" [],
           Event.doHello (runProfile profileName mode conf σ.stdin σ.files)], ?_, rfl, ?_, ?_, rfl, rfl⟩
    · simp [collectCommonFields_eq, saveProfile_eq, hsf, runProfile, runStore, commonResult]
    · simp [putProfiles_append, putProfiles, hp]
    · simp [savedConfigurations_append, savedConfigurations, hs]
  | some id =>
    refine ⟨{ σ with
        stdin := (modeResult mode (startProfile conf profileName) σ.stdin σ.files).2.tail.tail,
        persisted := σ.persisted,
        trace := σ.trace ++ ([Event.printf
        "Configuring profile \x27%s\x27 in \x27%s\x27 authenticate mode...\n"
        [profileName, mode]] ++ evs ++
      [Event.printf "Default Region Id [%s]: "
        [(modeResult mode (startProfile conf profileName) σ.stdin σ.files).1.RegionId],
       Event.printf "Default Output Format [%s]: json (Only support json))\n"
        [(modeResult mode (startProfile conf profileName) σ.stdin σ.files).1.OutputFormat],
       Event.printf "Default Language [zh|en] %s: "
        [(modeResult mode (startProfile conf profileName) σ.stdin σ.files).1.Language],
       Event.printf "Saving profile[%s] ..." [profileName]]) ++
          [Event.putProfile (runProfile profileName mode conf σ.stdin σ.files),
           Event.saveConfiguration (runStore profileName mode conf σ.stdin σ.files)] ++
          [] },
      [Event.printf
        "Configuring profile \x27%s\x27 in \x27%s\x27 authenticate mode...\n"
        [profileName, mode]] ++ evs ++
      [Event.printf "Default Region Id [%s]: "
        [(modeResult mode (startProfile conf profileName) σ.stdin σ.files).1.RegionId],
       Event.printf "Default Output Format [%s]: json (Only support json))\n"
        [(modeResult mode (startProfile conf profileName) σ.stdin σ.files).1.OutputFormat],
       Event.printf "Default Language [zh|en] %s: "
        [(modeResult mode (startProfile conf profileName) σ.stdin σ.files).1.Language],
       Event.printf "Saving profile[%s] ..." [profileName]],
      [], ?_, rfl, ?_, ?_, rfl, rfl⟩
    · simp [collectCommonFields_eq, saveProfile_eq, hsf, runProfile, runStore, commonResult]
    · simp [putProfiles_append, putProfiles, hp]
    · simp [savedConfigurations_append, savedConfigurations, hs]

/-- C14: in every run of `doConfigure` that reaches the save step (the load
succeeded and the mode is one of the five names or empty), the collected
profile is handed to `PutProfile` and, right after, the store is handed to
`SaveConfiguration`; that store has `CurrentProfile` equal to the profile's
`Name` (the requested name), holds the profile under that name, and holds
every profile of the loaded store with another name unchanged, and nothing
else. -/
theorem C14_put_then_save (profileName mode : GoString) (σ : World) (conf : Configuration)
    (hload : σ.persisted = Except.ok conf) (hmode : mode = [] ∨ validMode mode) :
    ∃ σ' p c pre post,
      doConfigure profileName mode σ = some (σ.saveFailure.map Error.external, σ') ∧
      σ'.trace = σ.trace ++ pre ++ [Event.putProfile p, Event.saveConfiguration c] ++ post ∧
      putProfiles pre = [] ∧ savedConfigurations pre = [] ∧
      putProfiles post = [] ∧ savedConfigurations post = [] ∧
      p.Name = profileName ∧ p.OutputFormat = ascii "json" ∧
      c.CurrentProfile = p.Name ∧
      c.GetProfile p.Name = some p ∧
      (∀ name, name ≠ p.Name → c.GetProfile name = conf.GetProfile name) ∧
      (∀ q ∈ conf.Profiles, q.Name ≠ p.Name → q ∈ c.Profiles) ∧
      (∀ q ∈ c.Profiles, q = p ∨ q ∈ conf.Profiles) := by
  obtain ⟨σ', pre, post, h1, h2, h3, h4, h5, h6⟩ :=
    doConfigure_trace profileName mode σ conf hload hmode
  refine ⟨σ', _, _, pre, post, h1, h2, h3, h4, h5, h6, runProfile_name _ _ _ _ _, rfl, rfl,
    ?_, ?_, ?_, ?_⟩
  · exact find_upsert_self _ _
  · intro name hne
    exact find_upsert_other _ _ name hne
  · intro q hq hne
    exact mem_upsert_of_mem _ q _ hq hne
  · intro q hq
    exact mem_of_mem_upsert _ q _ hq

/-- C14 on a store with the profiles `default` and `other`: configuring
`default` in mode `AK` saves a store whose current profile is `default`,
which holds the new `default` and the old `other`. -/
theorem C14_put_then_save_witness :
    ∃ σ' p c pre post,
      doConfigure (ascii "default") AK
        (World.start [ascii "NEWID"] noFiles (Except.ok twoStore) none) = some (none, σ') ∧
      σ'.trace = pre ++ [Event.putProfile p, Event.saveConfiguration c] ++ post ∧
      p.Name = ascii "default" ∧ c.CurrentProfile = ascii "default" ∧
      c.GetProfile (ascii "default") = some p ∧
      c.GetProfile (ascii "other") = twoStore.GetProfile (ascii "other") := by
  obtain ⟨σ', p, c, pre, post, h1, h2, -, -, -, -, h3, -, h4, h5, h6, -⟩ :=
    C14_put_then_save (ascii "default") AK
      (World.start [ascii "NEWID"] noFiles (Except.ok twoStore) none) twoStore rfl
      (Or.inr (by decide))
  refine ⟨σ', p, c, pre, post, h1, ?_, h3, ?_, ?_, ?_⟩
  · rw [h2]
    rfl
  · rw [h4, h3]
  · rw [← h3]
    exact h5
  · apply h6
    rw [h3]
    decide

/-- C15: for every default value `d` and every token `t` read from the
input, `ReadInput(d)` returns `d` when `t` is empty and exactly `t` when `t`
is not empty, and it consumes that one token; on exhausted input it returns
`d`. -/
theorem C15_ReadInput (d t : GoString) (rest : List GoString) (σ : World) :
    (t = [] → (ReadInput d { σ with stdin := t :: rest }).1 = d) ∧
    (t ≠ [] → (ReadInput d { σ with stdin := t :: rest }).1 = t) ∧
    (ReadInput d { σ with stdin := t :: rest }).2.stdin = rest ∧
    (ReadInput d { σ with stdin := [] }).1 = d := by
  refine ⟨?_, ?_, ?_, ?_⟩
  · intro h
    simp [ReadInput_eq, token, keepOnEmpty, h]
  · intro h
    simp [ReadInput_eq, token, keepOnEmpty, h]
  · simp [ReadInput_eq]
  · simp [ReadInput_eq, token, keepOnEmpty]

/-- C15 on the default `cn-hangzhou`: an empty line returns `cn-hangzhou`,
a long non-empty token is returned whole. -/
theorem C15_ReadInput_witness :
    (ReadInput (ascii "cn-hangzhou")
      (World.start [[]] noFiles (Except.ok emptyConfiguration) none)).1 = ascii "cn-hangzhou" ∧
    (ReadInput (ascii "cn-hangzhou")
      (World.start [ascii "us-east-1-with-a-long-suffix"] noFiles
        (Except.ok emptyConfiguration) none)).1 = ascii "us-east-1-with-a-long-suffix" := by
  constructor
  · exact (C15_ReadInput (ascii "cn-hangzhou") [] []
      (World.start [] noFiles (Except.ok emptyConfiguration) none)).1 rfl
  · exact (C15_ReadInput (ascii "cn-hangzhou") (ascii "us-east-1-with-a-long-suffix") []
      (World.start [] noFiles (Except.ok emptyConfiguration) none)).2.1 (by decide)

/-- C16 fails as stated: in mode `AK` on a new profile, the two token
sequences `AKID, SECRET, cn-hangzhou, zh, en` and
`AKID, SECRET, cn-hangzhou, en, en` have the same region and the same third
common token and differ only in the token typed after the region, yet the
profiles put differ in `Language` (`zh` against `en`): no token is read at the
output-format prompt, so that token is the language, and the last token is
left unread. -/
theorem C16_output_format_prompt_counterexample :
    ∃ σ1 p1 σ2 p2,
      doConfigure (ascii "default") AK
        (World.start [ascii "AKID", ascii "SECRET", ascii "cn-hangzhou", ascii "zh", ascii "en"]
          noFiles (Except.ok emptyConfiguration) none) = some (none, σ1) ∧
      putProfiles σ1.trace = [p1] ∧
      doConfigure (ascii "default") AK
        (World.start [ascii "AKID", ascii "SECRET", ascii "cn-hangzhou", ascii "en", ascii "en"]
          noFiles (Except.ok emptyConfiguration) none) = some (none, σ2) ∧
      putProfiles σ2.trace = [p2] ∧
      p1.Language = ascii "zh" ∧ p2.Language = ascii "en" ∧ p1.Language ≠ p2.Language ∧
      σ1.stdin = [ascii "en"] ∧ σ2.stdin = [ascii "en"] := by
  obtain ⟨σ1, h1, h2, -, h3, -⟩ := doConfigure_run (ascii "default") AK
    (World.start [ascii "AKID", ascii "SECRET", ascii "cn-hangzhou", ascii "zh", ascii "en"]
      noFiles (Except.ok emptyConfiguration) none) emptyConfiguration rfl (Or.inr (by decide))
  obtain ⟨σ2, k1, k2, -, k3, -⟩ := doConfigure_run (ascii "default") AK
    (World.start [ascii "AKID", ascii "SECRET", ascii "cn-hangzhou", ascii "en", ascii "en"]
      noFiles (Except.ok emptyConfiguration) none) emptyConfiguration rfl (Or.inr (by decide))
  refine ⟨σ1, _, σ2, _, h1, h2, k1, k2, by decide, by decide, by decide, ?_, ?_⟩
  · rw [h3]
    decide
  · rw [k3]
    decide

/-- C16 as amended: the common-field block reads exactly two tokens. The
first goes to `RegionId` (keep-on-empty), the second to `Language`
(keep-on-empty, then normalised); nothing is read at the output-format
prompt, `OutputFormat` is set to `json`, no other field changes, and any
further token stays on standard input. -/
theorem C16_common_fields (cp : Profile) (σ : World) :
    (collectCommonFields cp σ).1 =
      { cp with
        RegionId := keepOnEmpty cp.RegionId (token σ.stdin 0),
        OutputFormat := ascii "json",
        Language := normalizeLanguage (keepOnEmpty cp.Language (token σ.stdin 1)) } ∧
    (collectCommonFields cp σ).2.stdin = σ.stdin.tail.tail := by
  rw [collectCommonFields_eq]
  exact ⟨rfl, rfl⟩

/-- C17: `doConfigure` always returns. It returns a non-nil error exactly
when `LoadConfiguration` fails (that error, nothing done), or the load
succeeded and the mode is neither empty nor one of the five names (the
invalid-mode error), or the save step was reached and `SaveConfiguration`
failed (that error). Whenever the load succeeded and the mode is empty or
one of the five names, whatever the tokens and whatever the collector
returned, the common-field block has run and the profile was put; if it
returns nil, that is the case. -/
theorem C17_error_iff (profileName mode : GoString) (σ : World) :
    ∃ e σ', doConfigure profileName mode σ = some (e, σ') ∧
      (e ≠ none ↔
        (∃ id, σ.persisted = Except.error id) ∨
        ((∃ conf, σ.persisted = Except.ok conf) ∧ mode ≠ [] ∧ ¬ validMode mode) ∨
        ((∃ conf, σ.persisted = Except.ok conf) ∧ (mode = [] ∨ validMode mode) ∧
          σ.saveFailure ≠ none)) ∧
      (∀ id, σ.persisted = Except.error id → e = some (Error.external id) ∧
        σ'.trace = σ.trace) ∧
      ((∃ conf, σ.persisted = Except.ok conf) → mode ≠ [] → ¬ validMode mode →
        e = some (Error.unexpectedMode mode)) ∧
      ((∃ conf, σ.persisted = Except.ok conf) → (mode = [] ∨ validMode mode) →
        e = σ.saveFailure.map Error.external ∧
        ∃ p, putProfiles σ'.trace = putProfiles σ.trace ++ [p] ∧
          p.OutputFormat = ascii "json" ∧
          (p.Language = ascii "zh" ∨ p.Language = ascii "en")) ∧
      (e = none → ∃ p, putProfiles σ'.trace = putProfiles σ.trace ++ [p]) := by
  have hnorm : ∀ l, normalizeLanguage l = ascii "zh" ∨ normalizeLanguage l = ascii "en" := by
    intro l
    unfold normalizeLanguage
    by_cases h : l = ascii "zh" ∨ l = ascii "en"
    · rw [if_pos h]
      exact h
    · rw [if_neg h]
      exact Or.inr rfl
  cases hload : σ.persisted with
  | error id =>
    refine ⟨_, _, doConfigure_load_error profileName mode σ id hload, ?_, ?_, ?_, ?_, ?_⟩
    · simp
    · intro id' h
      cases h
      exact ⟨rfl, rfl⟩
    · rintro ⟨conf, h⟩
      cases h
    · rintro ⟨conf, h⟩
      cases h
    · intro h
      cases h
  | ok conf =>
    by_cases hm : mode = [] ∨ validMode mode
    · obtain ⟨σ', h1, h2, -⟩ := doConfigure_run profileName mode σ conf hload hm
      refine ⟨_, σ', h1, ?_, ?_, ?_, ?_, ?_⟩
      · have hm' : ¬ (mode ≠ [] ∧ ¬ validMode mode) := by tauto
        cases hsf : σ.saveFailure <;> simp [hm, hm']
      · intro id h
        cases h
      · intro _ hne hinv
        rcases hm with h | h
        · exact absurd h hne
        · exact absurd h hinv
      · intro _ _
        exact ⟨rfl, _, h2, rfl, hnorm _⟩
      · intro _
        exact ⟨_, h2⟩
    · have hne : mode ≠ [] := fun h => hm (Or.inl h)
      have hinv : ¬ validMode mode := fun h => hm (Or.inr h)
      refine ⟨_, _, doConfigure_invalid profileName mode σ conf hload hne hinv, ?_, ?_, ?_, ?_, ?_⟩
      · simp [hne, hinv]
      · intro id h
        cases h
      · intro _ _ _
        rfl
      · intro _ h
        exact absurd h hm
      · intro h
        cases h

/-- C17 on the run of C1: mode `RsaKeyPair` with an unreadable key file, the
load and the save succeeding. The collector returned an error, and
`doConfigure` returns nil having put the profile. -/
theorem C17_error_iff_witness :
    ∃ σ' p, doConfigure (ascii "default") RsaKeyPair
        (World.start [ascii "/no/such/key.pem", ascii "cn-hangzhou", []] noFiles
          (Except.ok emptyConfiguration) none) = some (none, σ') ∧
      putProfiles σ'.trace = [p] := by
  obtain ⟨e, σ', h1, -, -, -, h2, -⟩ := C17_error_iff (ascii "default") RsaKeyPair
    (World.start [ascii "/no/such/key.pem", ascii "cn-hangzhou", []] noFiles
      (Except.ok emptyConfiguration) none)
  obtain ⟨he, p, hp, -⟩ := h2 ⟨emptyConfiguration, rfl⟩ (Or.inr (by decide))
  subst he
  exact ⟨σ', p, h1, hp⟩

/-- C18: `configureRsaKeyPair` is atomic on failure. For every profile and
every path token, if reading the key file fails it returns the read error
carrying the path and leaves the profile exactly as it was; if the read
succeeds it returns nil, `PrivateKey` is the content of the file,
`KeyPairName` is the next token (empty if that token is empty),
`ExpiredSeconds` is 900 and no other field changes. -/
theorem C18_rsa_atomic (cp : Profile) (σ : World) :
    (∀ id, σ.files (token σ.stdin 0) = Except.error id →
      ∃ σ', configureRsaKeyPair cp σ =
        some (some (Error.readKeyFile (token σ.stdin 0) (Error.external id)), cp, σ')) ∧
    (∀ buf, σ.files (token σ.stdin 0) = Except.ok buf →
      ∃ cp' σ', configureRsaKeyPair cp σ = some (none, cp', σ') ∧
        cp'.PrivateKey = buf ∧ cp'.KeyPairName = token σ.stdin 1 ∧
        cp'.ExpiredSeconds = 900 ∧
        cp' = { cp with PrivateKey := buf, KeyPairName := token σ.stdin 1,
                        ExpiredSeconds := 900 }) := by
  constructor
  · intro id h
    exact ⟨_, configureRsaKeyPair_error cp σ id h⟩
  · intro buf h
    exact ⟨_, _, configureRsaKeyPair_ok cp σ buf h, rfl, rfl, rfl, rfl⟩

/-- C18 on the stored profile `default` of `roleStore` (whose `KeyPairName`
is `old`): with the unreadable path `/nope` the profile comes back unchanged
with an error; with the readable `/key.pem` and the token `pair` it comes
back with `PrivateKey = KEY`, `KeyPairName = pair`, `ExpiredSeconds = 900`. -/
theorem C18_rsa_atomic_witness :
    (∃ e σ', configureRsaKeyPair (startProfile roleStore (ascii "default"))
        (World.start [ascii "/nope", ascii "pair"] oneKeyFile (Except.ok roleStore) none)
          = some (some e, startProfile roleStore (ascii "default"), σ')) ∧
    (∃ cp' σ', configureRsaKeyPair (startProfile roleStore (ascii "default"))
        (World.start [ascii "/key.pem", ascii "pair"] oneKeyFile (Except.ok roleStore) none)
          = some (none, cp', σ') ∧
      cp'.PrivateKey = ascii "KEY" ∧ cp'.KeyPairName = ascii "pair" ∧
      cp'.ExpiredSeconds = 900) := by
  constructor
  · obtain ⟨σ', h⟩ := (C18_rsa_atomic (startProfile roleStore (ascii "default"))
      (World.start [ascii "/nope", ascii "pair"] oneKeyFile (Except.ok roleStore) none)).1 2
      rfl
    exact ⟨_, σ', h⟩
  · obtain ⟨cp', σ', h1, h2, h3, h4, -⟩ :=
      (C18_rsa_atomic (startProfile roleStore (ascii "default"))
        (World.start [ascii "/key.pem", ascii "pair"] oneKeyFile (Except.ok roleStore) none)).2
        (ascii "KEY") rfl
    exact ⟨cp', σ', h1, h2, h3, h4⟩

theorem token_of_all_empty (l : List GoString) (h : ∀ t ∈ l, t = []) (i : Nat) :
    token l i = [] := by
  induction l generalizing i with
  | nil => rfl
  | cons t ts ih =>
    cases i with
    | zero => exact h t (List.mem_cons_self _ _)
    | succ i => exact ih (fun u hu => h u (List.mem_cons_of_mem _ hu)) i

theorem keepOnEmpty_empty (c : GoString) : keepOnEmpty c [] = c := by
  simp [keepOnEmpty]

theorem normalizeLanguage_fixed (l : GoString) (h : l = ascii "zh" ∨ l = ascii "en") :
    normalizeLanguage l = l := by
  unfold normalizeLanguage
  rw [if_pos h]

/-- C19: re-running the workflow and pressing Enter at every prompt is the
identity on an already-configured profile. For every mode `m` among `AK`,
`StsToken`, `RamRoleArn`, `EcsRamRole` and every stored profile `p` with
`p.Mode = m`, `p.OutputFormat = json`, `p.Language` one of `zh`, `en` (and
`p.ExpiredSeconds = 900` when `m` is `RamRoleArn`), `doConfigure` with mode
`m` and only empty tokens puts a profile equal to `p`. -/
theorem C19_rerun_identity (profileName mode : GoString) (σ : World) (conf : Configuration)
    (p : Profile)
    (hload : σ.persisted = Except.ok conf)
    (hget : conf.GetProfile profileName = some p)
    (hmode : mode = AK ∨ mode = StsToken ∨ mode = RamRoleArn ∨ mode = EcsRamRole)
    (hpm : p.Mode = mode)
    (hfmt : p.OutputFormat = ascii "json")
    (hlang : p.Language = ascii "zh" ∨ p.Language = ascii "en")
    (hexp : mode = RamRoleArn → p.ExpiredSeconds = 900)
    (hempty : ∀ t ∈ σ.stdin, t = []) :
    ∃ σ', doConfigure profileName mode σ = some (σ.saveFailure.map Error.external, σ') ∧
      putProfiles σ'.trace = putProfiles σ.trace ++ [p] := by
  have hd := modeNames_distinct
  have hv : mode = [] ∨ validMode mode := by
    unfold validMode
    tauto
  have hstart : startProfile conf profileName = p := by
    unfold startProfile
    rw [hget]
  have htok : ∀ i, token σ.stdin i = [] := token_of_all_empty σ.stdin hempty
  obtain ⟨σ', h1, h2, -⟩ := doConfigure_run profileName mode σ conf hload hv
  refine ⟨σ', h1, ?_⟩
  rw [h2]
  have hp : runProfile profileName mode conf σ.stdin σ.files = p := by
    have hl := normalizeLanguage_fixed p.Language hlang
    unfold runProfile
    rw [hstart]
    clear hload hget hstart h1 h2 hempty hv hlang
    rcases hmode with h | h | h | h <;> subst h
    · simp only [modeResult, commonResult, hd, if_false, if_true, token_tail, htok,
        keepOnEmpty_empty, hl]
      rw [← hpm, ← hfmt]
    · simp only [modeResult, commonResult, hd, if_false, if_true, token_tail, htok,
        keepOnEmpty_empty, hl]
      rw [← hpm, ← hfmt]
    · simp only [modeResult, commonResult, hd, if_false, if_true, token_tail, htok,
        keepOnEmpty_empty, hl]
      rw [← hpm, ← hfmt, ← hexp rfl]
    · simp only [modeResult, commonResult, hd, if_false, if_true, token_tail, htok,
        keepOnEmpty_empty, hl]
      rw [← hpm, ← hfmt]
  rw [hp]

/-- C19 on the stored profile `default` of `configuredStore`, configured in
mode `StsToken`, re-run in mode `StsToken` with five empty lines. -/
theorem C19_rerun_identity_witness :
    ∃ σ' p, configuredStore.GetProfile (ascii "default") = some p ∧
      doConfigure (ascii "default") StsToken
        (World.start [[], [], [], [], []] noFiles (Except.ok configuredStore) none)
          = some (none, σ') ∧
      putProfiles σ'.trace = [p] := by
  obtain ⟨σ', h1, h2⟩ := C19_rerun_identity (ascii "default") StsToken
    (World.start [[], [], [], [], []] noFiles (Except.ok configuredStore) none)
    configuredStore (startProfile configuredStore (ascii "default")) rfl (by decide)
    (Or.inr (Or.inl rfl)) (by decide) (by decide) (by decide)
    (fun h => absurd h (by decide)) (by decide)
  exact ⟨σ', _, by decide, h1, h2⟩

theorem masks_overflow (s : GoString) (n : Int)
    (hs : len s < 2 ^ 63) (hlo : -(2 ^ 63) ≤ n) (hov : 2 ^ 63 ≤ len s - n) :
    wrapInt (len s - n) ≤ 0 ∧
    MosaicString s n = some (List.replicate s.length starByte) ∧
    GetLastChars s n = some (List.replicate s.length starByte) := by
  have hlen : len s = (s.length : Int) := rfl
  have hw : wrapInt (len s - n) ≤ 0 := by
    unfold wrapInt
    omega
  have hr : ¬ wrapInt (len s - n) > 0 := by omega
  have h1 : ¬ len s < 0 := by omega
  refine ⟨hw, ?_, ?_⟩
  · unfold MosaicString
    rw [if_neg hr]
    simp [Repeat, h1, hlen, flatten_replicate_star]
  · unfold GetLastChars
    rw [if_neg hr]
    simp [Repeat, h1, hlen, flatten_replicate_star]

theorem masks_out_of_range (s : GoString) (n : Int)
    (hneg : n < 0) (hnov : len s - n < 2 ^ 63) :
    wrapInt (len s - n) > len s ∧
    sliceFrom s (wrapInt (len s - n)) = none ∧
    MosaicString s n = none ∧ GetLastChars s n = none := by
  have hlen : len s = (s.length : Int) := rfl
  have hw : wrapInt (len s - n) = len s - n := wrapInt_of_range _ (by omega) hnov
  have hr : len s - n > 0 := by omega
  have h1 : ¬ len s - n < 0 := by omega
  have h2 : ¬ (0 ≤ len s - n ∧ len s - n ≤ len s) := by omega
  have hsl : sliceFrom s (len s - n) = none := by
    unfold sliceFrom
    rw [if_neg h2]
  rw [hw]
  refine ⟨by omega, hsl, ?_, ?_⟩
  · unfold MosaicString
    rw [hw, if_pos hr]
    simp [Repeat, h1, hsl]
  · unfold GetLastChars
    rw [hw, if_pos hr]
    exact hsl

/-- C20 fails as stated in its last clause: for the negative
`lastChars = -2^63` (the least `int`) and `s = "AB"`, the index
`r = len(s) - lastChars` overflows and wraps to a negative value, so it does
not exceed `len(s)`, no slice is evaluated, and both functions return `"**"`
instead of failing. -/
theorem C20_negative_lastChars_counterexample :
    ¬ (wrapInt (len (ascii "AB") - (-(2 ^ 63))) > len (ascii "AB")) ∧
    MosaicString (ascii "AB") (-(2 ^ 63)) = some (ascii "**") ∧
    GetLastChars (ascii "AB") (-(2 ^ 63)) = some (ascii "**") := by
  have hl : len (ascii "AB") = 2 := by simp [len, ascii]
  obtain ⟨h1, h2, h3⟩ := masks_overflow (ascii "AB") (-(2 ^ 63))
    (by rw [hl]; norm_num) (by norm_num) (by rw [hl]; norm_num)
  refine ⟨?_, ?_, ?_⟩
  · rw [hl] at h1 ⊢
    omega
  · rw [h2]
    decide
  · rw [h3]
    decide

/-- C20 as amended: for every string `s` and every `int` `lastChars`,
(a) if `lastChars >= 0`, the index `r = len(s) - lastChars` satisfies
`0 < r <= len(s)` whenever `s[r:]` is evaluated (that is, whenever `r > 0`),
the slice succeeds and neither function panics; (b) if `lastChars < 0` and
`len(s) - lastChars` does not overflow, `r` exceeds `len(s)`, the slice is
out of range and both functions panic; (c) if `lastChars < 0` and
`len(s) - lastChars` overflows, `r` wraps to a value `<= 0`, no slice is
evaluated and both functions return `len(s)` bytes `*`. -/
theorem C20_slice_index (s : GoString) (n : Int)
    (hs : len s < 2 ^ 63) (hlo : -(2 ^ 63) ≤ n) (hhi : n < 2 ^ 63) :
    (0 ≤ n →
      (wrapInt (len s - n) > 0 →
        0 < wrapInt (len s - n) ∧ wrapInt (len s - n) ≤ len s ∧
        (sliceFrom s (wrapInt (len s - n))).isSome) ∧
      (MosaicString s n).isSome ∧ (GetLastChars s n).isSome) ∧
    (n < 0 → len s - n < 2 ^ 63 →
      wrapInt (len s - n) > len s ∧ sliceFrom s (wrapInt (len s - n)) = none ∧
      MosaicString s n = none ∧ GetLastChars s n = none) ∧
    (n < 0 → 2 ^ 63 ≤ len s - n →
      wrapInt (len s - n) ≤ 0 ∧
      MosaicString s n = some (List.replicate s.length starByte) ∧
      GetLastChars s n = some (List.replicate s.length starByte)) := by
  have hlen : len s = (s.length : Int) := rfl
  refine ⟨?_, ?_, ?_⟩
  · intro hn
    have hw : wrapInt (len s - n) = len s - n := wrapInt_of_range _ (by omega) (by omega)
    refine ⟨?_, ?_, ?_⟩
    · intro hr
      rw [hw] at hr ⊢
      have h2 : 0 ≤ len s - n ∧ len s - n ≤ len s := by omega
      refine ⟨hr, by omega, ?_⟩
      unfold sliceFrom
      rw [if_pos h2]
      rfl
    · by_cases h : len s > n
      · rw [MosaicString_long s n hn hs h]
        rfl
      · rw [(masks_short s n hhi (by omega)).1]
        rfl
    · by_cases h : len s > n
      · rw [GetLastChars_long s n hn hs h]
        rfl
      · rw [(masks_short s n hhi (by omega)).2]
        rfl
  · intro hneg hnov
    exact masks_out_of_range s n hneg hnov
  · intro _ hov
    exact masks_overflow s n hs hlo hov

/-- C20 as amended, on `"ABCDEFGHIJ"`: with `lastChars = 3` both functions
return; with `lastChars = -1` the index is 11, beyond the length 10, and
both panic. -/
theorem C20_slice_index_witness :
    (MosaicString (ascii "ABCDEFGHIJ") 3).isSome ∧
    (GetLastChars (ascii "ABCDEFGHIJ") 3).isSome ∧
    wrapInt (len (ascii "ABCDEFGHIJ") - (-1)) > len (ascii "ABCDEFGHIJ") ∧
    MosaicString (ascii "ABCDEFGHIJ") (-1) = none ∧
    GetLastChars (ascii "ABCDEFGHIJ") (-1) = none := by
  have hl : len (ascii "ABCDEFGHIJ") = 10 := by simp [len, ascii]
  obtain ⟨h1, -, -⟩ := C20_slice_index (ascii "ABCDEFGHIJ") 3
    (by rw [hl]; norm_num) (by norm_num) (by norm_num)
  obtain ⟨-, h2, -⟩ := C20_slice_index (ascii "ABCDEFGHIJ") (-1)
    (by rw [hl]; norm_num) (by norm_num) (by norm_num)
  obtain ⟨-, h3, h4⟩ := h1 (by norm_num)
  obtain ⟨h5, -, h6, h7⟩ := h2 (by norm_num) (by rw [hl]; norm_num)
  exact ⟨h3, h4, h5, h6, h7⟩

end Config
